import Mathlib

/-!
# go-wifi-connect: the network orchestration engine

A shallow embedding of `internal/models/security.go`, `internal/models/flags.go`
and `internal/modules/network/network.go`.

* Machine integers (`uint32`, `uint8`, `int`) are natural numbers or integers;
  the one arithmetic operation on a `uint32` (the `+=` of the classifier) is
  taken modulo `2^32`.
* Go errors are `Option String` (`none` is `nil`) or `Except String _`.
* Calls that leave the process (the network service over the bus, the DHCP/DNS
  helper, the HTTP server, `time.Sleep`) are answered by an environment and
  recorded in a trace.
-/

namespace WifiConnect

/-! ## internal/models/security.go -/

/-- SECURITY flag for access point security key management (`type SECURITY uint32`). -/
abbrev SECURITY := Nat

def NONE : SECURITY := 0b00000000
def WEP : SECURITY := 0b00000001
def WPA : SECURITY := 0b00000010
def WPA2 : SECURITY := 0b00000100
def ENTERPRISE : SECURITY := 0b00001000

/-- The method `SECURITY.String`: a `switch d` over the four named constants. -/
def SECURITY.String (d : SECURITY) : String :=
  if d = WEP then "web"
  else if d = WPA then "wpa"
  else if d = WPA2 then "wp2"
  else if d = ENTERPRISE then "enterprise"
  else "none"

/-! ## internal/models/flags.go -/

def ApFlagsPrivacy : Nat := 0x00000001
def ApSecNone : Nat := 0x00000000
def ApSecKeyMgmt8021X : Nat := 0x00000200

/-- Addition of two `uint32` values. -/
def addU32 (a b : Nat) : Nat := (a + b) % 2 ^ 32

/-! ## The access point object of the network service -/

/-- What the network service answers for one access point object: its object
path and the result of each property read (`GetPropertySSID`,
`GetPropertyStrength`, `GetPropertyFlags`, `GetPropertyWPAFlags`,
`GetPropertyRSNFlags`). -/
structure NMAccessPoint where
  GetPath : String
  GetPropertySSID : Except String String
  GetPropertyStrength : Except String Nat
  GetPropertyFlags : Except String Nat
  GetPropertyWPAFlags : Except String Nat
  GetPropertyRSNFlags : Except String Nat

/-- Lines 417-433 of `getAccessPointSecurity`: the classification of the three
flag words once they have been read. -/
def classifyFlags (flag wpaFlag rsnFlag : Nat) : SECURITY :=
  let security := NONE
  let security :=
    if (flag &&& ApFlagsPrivacy) = ApFlagsPrivacy ∧ wpaFlag = ApSecNone ∧ rsnFlag = ApSecNone then
      addU32 security WEP
    else security
  let security := if wpaFlag ≠ ApSecNone then addU32 security WPA else security
  let security := if rsnFlag ≠ ApSecNone then addU32 security WPA2 else security
  let security :=
    if (wpaFlag &&& ApSecKeyMgmt8021X) = ApSecKeyMgmt8021X
        ∨ (rsnFlag &&& ApSecKeyMgmt8021X) = ApSecKeyMgmt8021X then
      addU32 security ENTERPRISE
    else security
  security

/-- The function `getAccessPointSecurity`. -/
def getAccessPointSecurity (ap : NMAccessPoint) : Except String SECURITY :=
  match ap.GetPropertyFlags with
  | .error _ => .error "found error on getting flags"
  | .ok flag =>
    match ap.GetPropertyWPAFlags with
    | .error _ => .error "found error on getting flags"
    | .ok wpaFlag =>
      match ap.GetPropertyRSNFlags with
      | .error _ => .error "found error on getting flags"
      | .ok rsnFlag => .ok (classifyFlags flag wpaFlag rsnFlag)

/-! ## Values sent to and received from the network service -/

/-- The Go values (`interface{}`) that occur in connection settings. -/
inductive Value where
  | str (s : String)
  | bytes (s : String)
  | bool (b : Bool)
  | u32 (n : Nat)
  | strs (l : List String)
  | addressData (l : List (String × Nat))
  deriving DecidableEq, Repr

/-- A Go `map[string]V`, as an association list with at most one entry per key. -/
abbrev GoMap (β : Type) := List (String × β)

/-- The assignment `m[k] = v`. -/
def mapSet {β : Type} : GoMap β → String → β → GoMap β
  | [], k, v => [(k, v)]
  | (k', v') :: t, k, v => if k' = k then (k, v) :: t else (k', v') :: mapSet t k v

/-- The lookup `v, ok := m[k]`. -/
def mapGet {β : Type} : GoMap β → String → Option β
  | [], _ => none
  | (k', v') :: t, k => if k' = k then some v' else mapGet t k

/-- The type `map[string]map[string]interface{}`. -/
abbrev ConnectionSettings := GoMap (GoMap Value)

/-- Handle of an active connection object of the network service. -/
abbrev ActiveConnection := Nat

/-- Handle of a connection profile object of the network service. -/
abbrev Connection := Nat

/-- Modelled from the spec: the constant `NmActiveConnectionStateActivated` of the
imported network-manager library (the "activated" activation state); only
equality with it is used. -/
def NmActiveConnectionStateActivated : Nat := 2

/-- Modelled from the spec: the constant `NmConnectivityLimited` of the imported
network-manager library (connectivity "limited"). -/
def NmConnectivityLimited : Nat := 3

/-- Modelled from the spec: the constant `NmConnectivityFull` of the imported
network-manager library (connectivity "full"). -/
def NmConnectivityFull : Nat := 4

/-! ## The engine state, the calls it makes, and their record -/

/-- The type `models.Config`. -/
structure ModelsConfig where
  Gateway : String
  Port : String
  DHCPRange : String
  SSID : String
  Interface : String
  Passphrase : String
  UIDirectory : String
  ActivityTimeout : Int
  deriving DecidableEq, Repr

/-- The type `network.AccessPoint`. -/
structure AccessPoint where
  SSID : String
  Path : String
  Strength : Nat
  Security : SECURITY
  deriving DecidableEq, Repr

/-- The mutable and configuration fields of `network.Config` (the logger and the
handles of the collaborators are not state of the engine). -/
structure Config where
  HotSpotConnection : Option ActiveConnection
  isHotSpotCreated : Bool
  Cfg : ModelsConfig
  WifiInterface : String
  AccessPoints : List AccessPoint
  deriving DecidableEq, Repr

/-- A call that leaves the engine. -/
inductive Call where
  | GetAccessPoints
  | GetPropertyAvailableConnections
  | GetSettings (conn : Connection)
  | Delete (conn : Connection)
  | AddAndActivateConnection (connection : ConnectionSettings)
  | AddAndActivateWirelessConnection (connection : ConnectionSettings) (apPath : String)
  | GetPropertyState (ac : ActiveConnection)
  | GetPropertyConnection (ac : ActiveConnection)
  | DeactivateConnection (ac : ActiveConnection)
  | GetPropertyConnectivity
  | NewAccessPoint (path : String)
  | StartDnsmasq (dInt : String)
  | KillDNSMasq
  | StartHTTPServer
  | CloseHTTPServer
  | Sleep (seconds : Nat)
  deriving DecidableEq, Repr

/-- One entry of the trace: the call, whether it succeeded, and the hotspot
fields of the engine at the moment of the call. -/
structure Event where
  call : Call
  ok : Bool
  isHotSpotCreated : Bool
  HotSpotConnection : Option ActiveConnection
  deriving DecidableEq, Repr

/-- The answers of the network service. Each answer may depend on everything
that happened before (the trace at the moment of the call). `rangeSeed` picks
the order in which Go ranges over a map. -/
structure Env where
  GetAccessPoints : List Event → Except String (List NMAccessPoint)
  rangeSeed : List Event → Nat
  GetPropertyAvailableConnections : List Event → Except String (List Connection)
  GetSettings : List Event → Connection → Except String ConnectionSettings
  Delete : List Event → Connection → Option String
  AddAndActivateConnection : List Event → ConnectionSettings → Except String ActiveConnection
  AddAndActivateWirelessConnection :
    List Event → ConnectionSettings → String → Except String ActiveConnection
  GetPropertyState : List Event → ActiveConnection → Except String Nat
  GetPropertyConnection : List Event → ActiveConnection → Except String Connection
  DeactivateConnection : List Event → ActiveConnection → Option String
  GetPropertyConnectivity : List Event → Except String Nat
  NewAccessPoint : List Event → String → Except String NMAccessPoint

/-- The engine together with the record of its calls. -/
structure World where
  c : Config
  trace : List Event
  deriving DecidableEq, Repr

/-- Append one call to the trace. -/
def World.record (w : World) (call : Call) (ok : Bool) : World :=
  { w with trace := w.trace ++ [⟨call, ok, w.c.isHotSpotCreated, w.c.HotSpotConnection⟩] }

/-- Assign the two hotspot fields. -/
def World.setHotSpot (w : World) (created : Bool) (hs : Option ActiveConnection) : World :=
  { w with c := { w.c with isHotSpotCreated := created, HotSpotConnection := hs } }

/-- Assign the cached list of access points. -/
def World.setAccessPoints (w : World) (aps : List AccessPoint) : World :=
  { w with c := { w.c with AccessPoints := aps } }

/-- How a function of the engine ends: it returns, it panics (Go run-time panic
or `panic(err)`), or the model ran out of fuel before it ended. -/
inductive Res (α : Type) where
  | ret (a : α) (w : World)
  | panicked (msg : String) (w : World)
  | noFuel (w : World)
  deriving DecidableEq, Repr

/-! ## Polling primitives -/

/-- The `for` loop of `waitForConnectionState`; `fuel` bounds the number of reads. -/
def waitForConnectionStateLoop (env : Env) (timeout : Int) (ac : ActiveConnection) (cs : Nat) :
    Nat → Int → World → Res (Bool × Option String)
  | 0, _, w => .noFuel w
  | fuel + 1, totalTime, w =>
    match env.GetPropertyState w.trace ac with
    | .error e => .ret (false, some e) (w.record (.GetPropertyState ac) false)
    | .ok state =>
      let w := w.record (.GetPropertyState ac) true
      if state = cs then .ret (true, none) w
      else if totalTime ≥ timeout then .ret (false, none) w
      else
        waitForConnectionStateLoop env timeout ac cs fuel (totalTime + 1)
          (w.record (.Sleep 1) true)

/-- The method `Config.waitForConnectionState`: `timeout + 1` reads are enough. -/
def waitForConnectionState (env : Env) (timeout : Int) (ac : ActiveConnection) (cs : Nat)
    (w : World) : Res (Bool × Option String) :=
  waitForConnectionStateLoop env timeout ac cs (timeout.toNat + 1) 0 w

/-- The `for` loop of `waitForConnectivity`; `fuel` bounds the number of reads. -/
def waitForConnectivityLoop (env : Env) (timeout : Int) :
    Nat → Int → World → Res (Bool × Option String)
  | 0, _, w => .noFuel w
  | fuel + 1, totalTime, w =>
    match env.GetPropertyConnectivity w.trace with
    | .error e => .ret (false, some e) (w.record .GetPropertyConnectivity false)
    | .ok nmConn =>
      let w := w.record .GetPropertyConnectivity true
      if nmConn = NmConnectivityFull ∨ nmConn = NmConnectivityLimited then .ret (true, none) w
      else if totalTime ≥ timeout then .ret (false, none) w
      else waitForConnectivityLoop env timeout fuel (totalTime + 1) (w.record (.Sleep 1) true)

/-- The method `Config.waitForConnectivity`. -/
def waitForConnectivity (env : Env) (timeout : Int) (w : World) : Res (Bool × Option String) :=
  waitForConnectivityLoop env timeout (timeout.toNat + 1) 0 w

/-! ## Scanning -/

/-- The body of `for _, aPoint := range activeAPoints` in `getAccessPoint`: the
three reads, each `continue` on an error, and the assignment
`tempAP[ssid] = a` for a non-empty SSID. -/
def scanStep (tempAP : GoMap AccessPoint) (aPoint : NMAccessPoint) : GoMap AccessPoint :=
  let path := aPoint.GetPath
  match aPoint.GetPropertySSID with
  | .error _ => tempAP
  | .ok ssid =>
    match aPoint.GetPropertyStrength with
    | .error _ => tempAP
    | .ok strength =>
      match getAccessPointSecurity aPoint with
      | .error _ => tempAP
      | .ok security =>
        if ssid ≠ "" then
          mapSet tempAP ssid
            { SSID := ssid, Security := security, Strength := strength, Path := path }
        else tempAP

/-- One pass over the visible access points, from an empty `tempAP`. -/
def scanPass (activeAPoints : List NMAccessPoint) : GoMap AccessPoint :=
  activeAPoints.foldl scanStep []

/-- The order of `for _, a := range tempAP`: Go leaves it unspecified, so it is
the permutation of the entries picked by `seed`. -/
def rangeOrder {β : Type} (seed : Nat) (l : List β) : List β :=
  (l.permutations).getD (seed % l.permutations.length) l

/-- The comparison handed to `sort.Slice`. -/
def less (a b : AccessPoint) : Prop := a.Strength > b.Strength

instance : DecidableRel less := fun a b => inferInstanceAs (Decidable (a.Strength > b.Strength))

/-- The call `sort.Slice(ap[:], less)` of the standard library, as the insertion
sort it runs on short slices: an element moves left while it is `less` than its
left neighbour. -/
def sortSlice (ap : List AccessPoint) : List AccessPoint :=
  ap.insertionSort (fun a b => ¬ less b a)

/-- The method `Config.getAccessPoint` from the label `start` on: `ap` and `err`
are the named results, `try_` the retry counter, `fuel` bounds the number of
passes. The error assigned when `try >= retryLimit` is followed by
`goto start` like every empty pass, and the next query assigns `err` again. -/
def getAccessPointLoop (env : Env) (retryLimit : Int) :
    Nat → Int → List AccessPoint → Option String → World →
      Res (List AccessPoint × Option String)
  | 0, _, _, _, w => .noFuel w
  | fuel + 1, try_, ap, _, w =>
    match env.GetAccessPoints w.trace with
    | .error e => .ret (ap, some e) (w.record .GetAccessPoints false)
    | .ok activeAPoints =>
      let err : Option String := none
      let w := w.record .GetAccessPoints true
      let tempAP := scanPass activeAPoints
      let ap := ap ++ rangeOrder (env.rangeSeed w.trace) (tempAP.map Prod.snd)
      if ap.length = 0 then
        let err := if try_ ≥ retryLimit then some "no accesspoint found" else err
        let try_ := try_ + 1
        let w := w.record (.Sleep 2) true
        getAccessPointLoop env retryLimit fuel try_ ap err w
      else
        .ret (sortSlice ap, err) w

/-- The method `Config.getAccessPoint`. -/
def getAccessPoint (env : Env) (fuel : Nat) (retryLimit : Int) (w : World) :
    Res (List AccessPoint × Option String) :=
  getAccessPointLoop env retryLimit fuel 0 [] none w

/-- The method `Config.getAccessPointFromSSID`: a scan with retry limit 10, then
the first entry with the wanted SSID is opened with `NewAccessPoint`. -/
def getAccessPointFromSSID (env : Env) (fuel : Nat) (ssid : String) (w : World) :
    Res (Except String NMAccessPoint) :=
  match getAccessPoint env fuel 10 w with
  | .noFuel w => .noFuel w
  | .panicked m w => .panicked m w
  | .ret (_, some e) w => .ret (.error ("found error on GetAccessPoints: " ++ e)) w
  | .ret (aPoints, none) w =>
    match aPoints.find? (fun aPoint => aPoint.SSID = ssid) with
    | some aPoint =>
      match env.NewAccessPoint w.trace aPoint.Path with
      | .error e => .ret (.error e) (w.record (.NewAccessPoint aPoint.Path) false)
      | .ok accessPoint => .ret (.ok accessPoint) (w.record (.NewAccessPoint aPoint.Path) true)
    | none => .ret (.error ("could not found accesspoint with ssid: " ++ ssid)) w

/-- The function `getWirelessCredentials`. -/
def getWirelessCredentials (ap : NMAccessPoint) (pwd identity : String) :
    ConnectionSettings × Option String :=
  let security80211 : ConnectionSettings := []
  match getAccessPointSecurity ap with
  | .error e => (security80211, some e)
  | .ok security =>
    if (security &&& ENTERPRISE) = ENTERPRISE then
      let setting1 : GoMap Value := []
      let setting2 : GoMap Value := []
      let setting1 := mapSet setting1 "key-mgmt" (.str "wpa-eap")
      let setting2 := mapSet setting2 "eap" (.strs ["peap"])
      let setting2 := mapSet setting2 "identity" (.str identity)
      let setting2 := mapSet setting2 "password" (.str pwd)
      let setting2 := mapSet setting2 "phase2-auth" (.str "mschapv2")
      let security80211 := mapSet security80211 "802-11-wireless-security" setting1
      let security80211 := mapSet security80211 "802-1x" setting2
      (security80211, none)
    else if (security &&& WPA2) = WPA2 ∨ (security &&& WPA) = WPA then
      let setting1 : GoMap Value := []
      let setting1 := mapSet setting1 "key-mgmt" (.str "wpa-psk")
      let setting1 := mapSet setting1 "psk" (.str pwd)
      (mapSet security80211 "802-11-wireless-security" setting1, none)
    else if (security &&& WEP) = WEP then
      let setting1 : GoMap Value := []
      let setting1 := mapSet setting1 "wep-key-type" (.u32 2)
      let setting1 := mapSet setting1 "wep-key0" (.str pwd)
      (mapSet security80211 "802-11-wireless-security" setting1, none)
    else (security80211, none)

/-! ## Hotspot lifecycle -/

/-- The connection profile that `CreateHotSpot` builds (lines 116-154). -/
def hotSpotSettings (cfg : ModelsConfig) (wifiInterface : String) : ConnectionSettings :=
  let connection : ConnectionSettings := []
  let wl : GoMap Value :=
    [("ssid", .bytes cfg.SSID), ("band", .str "bg"), ("hidden", .bool false),
      ("mode", .str "ap"), ("security", .str "802-11-wireless-security")]
  let cn : GoMap Value :=
    [("autoconnect", .bool false), ("id", .str cfg.SSID),
      ("interface-name", .str wifiInterface), ("type", .str "802-11-wireless")]
  let ipv4 : GoMap Value := []
  let ipv4 := mapSet ipv4 "method" (.str "manual")
  let ipv4 := mapSet ipv4 "address-data" (.addressData [(cfg.Gateway, 24)])
  let ipv6 : GoMap Value := [("method", .str "ignore")]
  let security : GoMap Value := [("key-mgmt", .str "wpa-psk"), ("psk", .str cfg.Passphrase)]
  let connection := mapSet connection "802-11-wireless" wl
  let connection := mapSet connection "802-11-wireless-security" security
  let connection := mapSet connection "connection" cn
  let connection := mapSet connection "ipv4" ipv4
  let connection := mapSet connection "ipv6" ipv6
  connection

/-- The method `Config.CreateHotSpot`; the value returned is `err`. The variable
`err` that receives "connection could not be activated" on line 180 is assigned
again by each of the three clean-up calls. -/
def CreateHotSpot (env : Env) (fuel : Nat) (w : World) : Res (Option String) :=
  let cfg := w.c.Cfg
  if w.c.isHotSpotCreated then
    .ret (some "CreateHotSpot - Hotspot already created") w
  else
    match getAccessPoint env fuel 10 w with
    | .noFuel w => .noFuel w
    | .panicked m w => .panicked m w
    | .ret (aps, err) w =>
      let w := w.setAccessPoints aps
      match err with
      | some e => .ret (some e) w
      | none =>
        let connection := hotSpotSettings cfg w.c.WifiInterface
        match env.AddAndActivateConnection w.trace connection with
        | .error e =>
          let w := w.record (.AddAndActivateConnection connection) false
          .ret (some e) (w.setHotSpot false none)
        | .ok hpConn =>
          let w := w.record (.AddAndActivateConnection connection) true
          match waitForConnectionState env 20 hpConn NmActiveConnectionStateActivated w with
          | .noFuel w => .noFuel w
          | .panicked m w => .panicked m w
          | .ret (_, some e) w => .ret (some e) (w.setHotSpot false none)
          | .ret (isActivated, none) w =>
            if isActivated then
              let w := w.setHotSpot true w.c.HotSpotConnection
              let w := w.record (.StartDnsmasq w.c.WifiInterface) true
              let w := w.setHotSpot w.c.isHotSpotCreated (some hpConn)
              .ret none w
            else
              match env.GetPropertyConnection w.trace hpConn with
              | .error e =>
                .ret (some ("CreateHotSpot - found error on GetPropertyConnection [" ++ e ++ "]"))
                  (w.record (.GetPropertyConnection hpConn) false)
              | .ok conn =>
                let w := w.record (.GetPropertyConnection hpConn) true
                match env.DeactivateConnection w.trace hpConn with
                | some e =>
                  .ret (some ("CreateHotSpot - found error on DeactivateConnection [" ++ e ++ "]"))
                    (w.record (.DeactivateConnection hpConn) false)
                | none =>
                  let w := w.record (.DeactivateConnection hpConn) true
                  match env.Delete w.trace conn with
                  | some e =>
                    .ret (some ("CreateHotSpot - found error on Delete [" ++ e ++ "]"))
                      (w.record (.Delete conn) false)
                  | none =>
                    let w := w.record (.Delete conn) true
                    .ret none (w.setHotSpot false none)

/-- The method `Config.CloseHotSpot`; the value returned is `err`. Calling a
method of `c.HotSpotConnection` while it is `nil` is a run-time panic. -/
def CloseHotSpot (env : Env) (w : World) : Res (Option String) :=
  if w.c.isHotSpotCreated then
    match w.c.HotSpotConnection with
    | none => .panicked "invalid memory address or nil pointer dereference" w
    | some hs =>
      match env.GetPropertyConnection w.trace hs with
      | .error e =>
        .ret (some ("CloseHotSpot - found error on GetPropertyConnection [" ++ e ++ "]"))
          (w.record (.GetPropertyConnection hs) false)
      | .ok conn =>
        let w := w.record (.GetPropertyConnection hs) true
        match env.DeactivateConnection w.trace hs with
        | some e =>
          .ret (some ("CloseHotSpot - found error on DeactivateConnection [" ++ e ++ "]"))
            (w.record (.DeactivateConnection hs) false)
        | none =>
          let w := w.record (.DeactivateConnection hs) true
          match env.Delete w.trace conn with
          | some e =>
            .ret (some ("CloseHotSpot - found error on Delete [" ++ e ++ "]"))
              (w.record (.Delete conn) false)
          | none =>
            let w := w.record (.Delete conn) true
            let w := w.record .KillDNSMasq true
            let w := w.setHotSpot false none
            let w := w.record (.Sleep 5) true
            .ret none w
  else .ret none w

/-- The method `Config.StartPortal`: `panic(err)` when `CreateHotSpot` fails. -/
def StartPortal (env : Env) (fuel : Nat) (w : World) : Res Unit :=
  match CreateHotSpot env fuel w with
  | .noFuel w => .noFuel w
  | .panicked m w => .panicked m w
  | .ret (some e) w => .panicked e w
  | .ret none w => .ret () (w.record .StartHTTPServer true)

/-- The method `Config.ClosePortal`: the error of `CloseHotSpot` is dropped. -/
def ClosePortal (env : Env) (w : World) : Res Unit :=
  match CloseHotSpot env w with
  | .noFuel w => .noFuel w
  | .panicked m w => .panicked m w
  | .ret _ w => .ret () (w.record .CloseHTTPServer true)

/-! ## Connecting -/

/-- The `for _, conn := range conns` loop of `deleteConnectionIfSameNetworkExists`. -/
def deleteSameNetwork (env : Env) (ssid : String) : List Connection → World → Option String × World
  | [], w => (none, w)
  | conn :: conns, w =>
    match env.GetSettings w.trace conn with
    | .error e => (some ("found error on GetSettings - " ++ e), w.record (.GetSettings conn) false)
    | .ok sett =>
      let w := w.record (.GetSettings conn) true
      match mapGet sett "802-11-wireless" with
      | none => deleteSameNetwork env ssid conns w
      | some wireless =>
        match mapGet wireless "ssid" with
        | some (.bytes connSsid) =>
          if ssid = connSsid then
            match env.Delete w.trace conn with
            | some e =>
              (some ("deleteConnectionIfSameNetworkExists - found error on Delete - " ++ e),
                w.record (.Delete conn) false)
            | none => deleteSameNetwork env ssid conns (w.record (.Delete conn) true)
          else deleteSameNetwork env ssid conns w
        | _ => deleteSameNetwork env ssid conns w

/-- The method `Config.deleteConnectionIfSameNetworkExists`. -/
def deleteConnectionIfSameNetworkExists (env : Env) (ssid : String) (w : World) :
    Option String × World :=
  match env.GetPropertyAvailableConnections w.trace with
  | .error e =>
    (some ("found error on GetPropertyAvailableConnections - " ++ e),
      w.record .GetPropertyAvailableConnections false)
  | .ok conns => deleteSameNetwork env ssid conns (w.record .GetPropertyAvailableConnections true)

/-- The settings that `Connect` hands over: the wireless section, then every
section of the credentials (`for k, val := range cred`; the keys are distinct
from one another, so the order of the range does not matter). -/
def connectSettings (cred : ConnectionSettings) : ConnectionSettings :=
  let connection : ConnectionSettings := []
  let connection := mapSet connection "802-11-wireless" []
  let connection :=
    mapSet connection "802-11-wireless" [("security", Value.str "802-11-wireless-security")]
  cred.foldl (fun connection kv => mapSet connection kv.1 kv.2) connection

/-- The method `Config.Connect`; the value returned is `flg`. On line 280 the
message is built from `err.Error()`, and `err` is `nil` there (line 271
returned otherwise): the call panics. -/
def Connect (env : Env) (fuel : Nat) (ssid pwd identity : String) (w : World) : Res Bool :=
  let flg := false
  match deleteConnectionIfSameNetworkExists env ssid w with
  | (some _, w) => .ret flg w
  | (none, w) =>
    match ClosePortal env w with
    | .noFuel w => .noFuel w
    | .panicked m w => .panicked m w
    | .ret _ w =>
      match getAccessPointFromSSID env fuel ssid w with
      | .noFuel w => .noFuel w
      | .panicked m w => .panicked m w
      | .ret (.error _) w => .ret flg w
      | .ret (.ok ap) w =>
        let connection := connectSettings (getWirelessCredentials ap pwd identity).1
        match env.AddAndActivateWirelessConnection w.trace connection ap.GetPath with
        | .error _ =>
          .ret flg (w.record (.AddAndActivateWirelessConnection connection ap.GetPath) false)
        | .ok wifiConn =>
          let w := w.record (.AddAndActivateWirelessConnection connection ap.GetPath) true
          match waitForConnectionState env 20 wifiConn NmActiveConnectionStateActivated w with
          | .noFuel w => .noFuel w
          | .panicked m w => .panicked m w
          | .ret (_, some _) w => .ret flg w
          | .ret (isActivated, none) w =>
            if isActivated then
              match waitForConnectivity env 20 w with
              | .noFuel w => .noFuel w
              | .panicked m w => .panicked m w
              | .ret (_, some _) w =>
                .panicked "invalid memory address or nil pointer dereference" w
              | .ret (_, none) w => .ret true w
            else
              match env.GetPropertyConnection w.trace wifiConn with
              | .error _ => .ret flg (w.record (.GetPropertyConnection wifiConn) false)
              | .ok conn =>
                let w := w.record (.GetPropertyConnection wifiConn) true
                match env.Delete w.trace conn with
                | some _ => .ret flg (w.record (.Delete conn) false)
                | none =>
                  let w := w.record (.Delete conn) true
                  match StartPortal env fuel w with
                  | .noFuel w => .noFuel w
                  | .panicked m w => .panicked m w
                  | .ret _ w => .ret flg w

/-! ## Projections and a concrete service to run the engine on -/

/-- Projection: the value returned, if the function returned. -/
def Res.value {α : Type} : Res α → Option α
  | .ret a _ => some a
  | _ => none

/-- Projection: the world in which the function ended. -/
def Res.world {α : Type} : Res α → World
  | .ret _ w => w
  | .panicked _ w => w
  | .noFuel w => w

/-- Projection: whether the function ended in a panic. -/
def Res.isPanicked {α : Type} : Res α → Bool
  | .panicked _ _ => true
  | _ => false

/-- Number of queries `GetAccessPoints` in a trace. -/
def queryCount (trace : List Event) : Nat :=
  (trace.filter (fun e => e.call = Call.GetAccessPoints)).length

/-- An access point "Home": strength 80, RSN flags CCMP + PSK. -/
def homeAP : NMAccessPoint :=
  { GetPath := "/ap/1", GetPropertySSID := .ok "Home", GetPropertyStrength := .ok 80,
    GetPropertyFlags := .ok 1, GetPropertyWPAFlags := .ok 0, GetPropertyRSNFlags := .ok 0x188 }

/-- An open access point "Cafe": strength 40, no flags. -/
def cafeAP : NMAccessPoint :=
  { GetPath := "/ap/2", GetPropertySSID := .ok "Cafe", GetPropertyStrength := .ok 40,
    GetPropertyFlags := .ok 0, GetPropertyWPAFlags := .ok 0, GetPropertyRSNFlags := .ok 0 }

/-- A service on which every call succeeds: "Cafe" and "Home" are visible, no
profile is stored, the hotspot gets the active connection 1 with profile 11, a
wireless connection gets the active connection 2 with profile 12, every
connection is activated at the first read, connectivity is full. -/
def envAllGood : Env :=
  { GetAccessPoints := fun _ => .ok [cafeAP, homeAP]
    rangeSeed := fun _ => 0
    GetPropertyAvailableConnections := fun _ => .ok []
    GetSettings := fun _ _ => .ok []
    Delete := fun _ _ => none
    AddAndActivateConnection := fun _ _ => .ok 1
    AddAndActivateWirelessConnection := fun _ _ _ => .ok 2
    GetPropertyState := fun _ _ => .ok NmActiveConnectionStateActivated
    GetPropertyConnection := fun _ ac => .ok (ac + 10)
    DeactivateConnection := fun _ _ => none
    GetPropertyConnectivity := fun _ => .ok NmConnectivityFull
    NewAccessPoint := fun _ path => .ok (if path = "/ap/1" then homeAP else cafeAP) }

/-- The configuration of the portal. -/
def portalCfg : ModelsConfig :=
  { Gateway := "192.168.42.1", Port := "80", DHCPRange := "192.168.42.2,192.168.42.254",
    SSID := "WiFi Connect", Interface := "", Passphrase := "", UIDirectory := "ui",
    ActivityTimeout := 0 }

/-- The engine right after `NewNetwork`: no hotspot, nothing recorded. -/
def worldFresh : World :=
  { c := { HotSpotConnection := none, isHotSpotCreated := false, Cfg := portalCfg,
           WifiInterface := "wlan0", AccessPoints := [] },
    trace := [] }

/-- The engine while the portal is up on active connection 1. -/
def worldPortalUp : World :=
  { c := { HotSpotConnection := some 1, isHotSpotCreated := true, Cfg := portalCfg,
           WifiInterface := "wlan0", AccessPoints := [] },
    trace := [] }

/-! ## Definitions used in the statements: counters, invariants, further services -/

/-- An environment in which no access point is ever visible. -/
def envNoAP : Env := { envAllGood with GetAccessPoints := fun _ => .ok [] }

/-- What every pass keeps true of `tempAP`: one entry per key, every entry filed
under its own SSID, no empty key. -/
def TempAPInv (m : GoMap AccessPoint) : Prop :=
  (m.map Prod.fst).Nodup ∧ ∀ p ∈ m, p.2.SSID = p.1 ∧ p.1 ≠ ""

/-- The three properties of a scan result. -/
def ScanResultOK (aps : List AccessPoint) : Prop :=
  (aps.map (fun a => a.SSID)).Nodup
    ∧ (∀ a ∈ aps, a.SSID ≠ "")
    ∧ ∀ (i j : Nat) (hi : i < aps.length) (hj : j < aps.length), i < j →
        aps[i].Strength ≥ aps[j].Strength

/-- A service on which the first query sees nothing and every later one sees
"Cafe", two access points called "Home", a hidden one and one whose SSID
cannot be read. -/
def envBusy : Env :=
  { envAllGood with
    GetAccessPoints := fun tr =>
      if tr = [] then .ok []
      else .ok [cafeAP, homeAP,
        { homeAP with GetPath := "/ap/3", GetPropertyStrength := .ok 30 },
        { cafeAP with GetPath := "/ap/4", GetPropertySSID := .ok "" },
        { cafeAP with GetPath := "/ap/5", GetPropertySSID := .error "bus error" }] }

/-- What the scan of `envBusy` returns. -/
def scanBusyResult : List AccessPoint :=
  [⟨"Cafe", "/ap/2", 40, 0⟩, ⟨"Home", "/ap/3", 30, 4⟩]

/-- Number of calls in a trace that satisfy `p`. -/
def callCount (p : Call → Bool) (trace : List Event) : Nat :=
  (trace.filter (fun e => p e.call)).length

/-- Whether a call reads the activation state. -/
def Call.isGetPropertyState : Call → Bool
  | .GetPropertyState _ => true
  | _ => false

/-- Whether a call adds and activates a connection profile. -/
def Call.isAdd : Call → Bool
  | .AddAndActivateConnection _ => true
  | .AddAndActivateWirelessConnection _ _ => true
  | _ => false

/-- Whether a call deletes a connection profile. -/
def Call.isDelete : Call → Bool
  | .Delete _ => true
  | _ => false

/-- Whether a call deactivates an active connection. -/
def Call.isDeactivate : Call → Bool
  | .DeactivateConnection _ => true
  | _ => false

/-- Number of successful calls in a trace that satisfy `p`. -/
def okCount (p : Call → Bool) (trace : List Event) : Nat :=
  (trace.filter (fun e => p e.call && e.ok)).length

/-- A service on which a connection stays in the state "activating" (1) for
ever; everything else succeeds. -/
def envNeverActivated : Env :=
  { envAllGood with GetPropertyState := fun _ _ => .ok 1 }

/-- A service on which the activation state cannot be read; everything else
succeeds. -/
def envStateReadFails : Env :=
  { envAllGood with GetPropertyState := fun _ _ => .error "bus error" }

/-- Whether a call starts the HTTP server of the portal. -/
def Call.isStartHTTPServer : Call → Bool
  | .StartHTTPServer => true
  | _ => false

/-- A service on which the connectivity cannot be read; everything else
succeeds and connections are activated at the first read. -/
def envConnectivityReadFails : Env :=
  { envAllGood with GetPropertyConnectivity := fun _ => .error "bus error" }

/-- A service whose connectivity stays "limited". -/
def envConnectivityLimited : Env :=
  { envAllGood with GetPropertyConnectivity := fun _ => .ok NmConnectivityLimited }

/-- A service whose connectivity stays "none" (1). -/
def envConnectivityNone : Env :=
  { envAllGood with GetPropertyConnectivity := fun _ => .ok 1 }

/-- A service that stores a stale profile 7 for "Home", on which a wireless
connection (active connection 2) stays "activating" and the hotspot (active
connection 1) is activated at the first read. -/
def envWifiNeverActivated : Env :=
  { envAllGood with
    GetPropertyAvailableConnections := fun _ => .ok [7]
    GetSettings := fun _ _ => .ok [("802-11-wireless", [("ssid", Value.bytes "Home")])]
    GetPropertyState := fun _ ac => .ok (if ac = 1 then NmActiveConnectionStateActivated else 1) }

/-- The settings `Connect` sends for "Home" with password "password123". -/
def homeSettings : ConnectionSettings :=
  connectSettings (getWirelessCredentials homeAP "password123" "").1

/-- The worlds along `Connect "Home"` on `envWifiNeverActivated`: after the
stale-profile deletion. -/
def failW1 : World :=
  (deleteConnectionIfSameNetworkExists envWifiNeverActivated "Home" worldPortalUp).2

/-- After the hotspot close. -/
def failW2 : World := (CloseHotSpot envWifiNeverActivated failW1).world

/-- After the look-up of the target access point. -/
def failW3 : World :=
  (getAccessPointFromSSID envWifiNeverActivated 3 "Home"
    (failW2.record .CloseHTTPServer true)).world

/-- After the polling of the wireless connection. -/
def failW4 : World :=
  (waitForConnectionState envWifiNeverActivated 20 2 NmActiveConnectionStateActivated
    (failW3.record (.AddAndActivateWirelessConnection homeSettings "/ap/1") true)).world

/-- After the scan inside `CreateHotSpot`. -/
def failW6 : World :=
  (getAccessPoint envWifiNeverActivated 3 10
    ((failW4.record (.GetPropertyConnection 2) true).record (.Delete 12) true)).world

/-- After the polling of the hotspot connection. -/
def failW7 : World :=
  (waitForConnectionState envWifiNeverActivated 20 1 NmActiveConnectionStateActivated
    ((failW6.setAccessPoints [⟨"Home", "/ap/1", 80, 4⟩, ⟨"Cafe", "/ap/2", 40, 0⟩]).record
      (.AddAndActivateConnection (hotSpotSettings failW4.c.Cfg failW6.c.WifiInterface))
      true)).world

/-! ## The list shown by the portal -/

/-- Modelled from the spec: the type `models.AccessPoint` of the portal-facing
interface, declared outside the files at hand; the spec gives it as
"list of {ssid, security}", the security as text. -/
structure ModelsAccessPoint where
  SSID : String
  Security : String
  deriving DecidableEq, Repr

/-- The method `Config.GetAccessPoint`; the second component is `err`, which is
never assigned. -/
def GetAccessPoint (c : Config) : List ModelsAccessPoint × Option String :=
  if c.AccessPoints.length > 0 then
    (c.AccessPoints.map
      (fun Ap => { SSID := Ap.SSID, Security := SECURITY.String Ap.Security }), none)
  else ([], none)

/-- A cached list: "Home" with WPA2 at strength 80, then the open "Cafe" at 40. -/
def homeCafeList : List AccessPoint :=
  [⟨"Home", "/ap/1", 80, WPA2⟩, ⟨"Cafe", "/ap/2", 40, NONE⟩]

/-! ## Polling, as a sequence of reads -/

/-- Whether a call is a sleep. -/
def Call.isSleep : Call → Bool
  | .Sleep _ => true
  | _ => false

/-- Whether a call reads the connectivity. -/
def Call.isGetPropertyConnectivity : Call → Bool
  | .GetPropertyConnectivity => true
  | _ => false

/-- The world after `k` polls that did not end the loop: `k` successful reads
(`call`), each followed by a sleep of one unit. The read number `i` (from 0) of
a polling loop started in `w` is answered at the trace of `pollWorld call w i`. -/
def pollWorld (call : Call) : World → Nat → World
  | w, 0 => w
  | w, k + 1 => pollWorld call ((w.record call true).record (.Sleep 1) true) k

/-- What a polling loop with time-out `t`, started in `w`, did when it ends with
result `r` in world `w'`. There is a read number `k ≤ t` before which every read
succeeded without showing a target value, and either read `k` shows the target
and the result is true, or read `k` fails and the result is false with its
error, or `k = t`, read `k` shows no target either and the result is false. In
each case the loop made `k + 1` reads and `k` sleeps. -/
def PollOutcome (read : List Event → Except String Nat) (call : Call) (isTarget : Nat → Prop)
    (t : Nat) (w : World) (r : Bool × Option String) (w' : World) : Prop :=
  ∃ k, k ≤ t
    ∧ (∀ i, i < k → ∃ v, read (pollWorld call w i).trace = .ok v ∧ ¬ isTarget v)
    ∧ ((∃ v, read (pollWorld call w k).trace = .ok v ∧ isTarget v
          ∧ r = (true, none) ∧ w' = (pollWorld call w k).record call true)
      ∨ (∃ e, read (pollWorld call w k).trace = .error e
          ∧ r = (false, some e) ∧ w' = (pollWorld call w k).record call false)
      ∨ (k = t ∧ ∃ v, read (pollWorld call w k).trace = .ok v ∧ ¬ isTarget v
          ∧ r = (false, none) ∧ w' = (pollWorld call w k).record call true))

/-! ## A pass of the scan, as the spec words it -/

/-- What one visible access point contributes to a pass: an entry with its
SSID, strength, classification and path when the three reads succeed and the
SSID is not empty, nothing otherwise. -/
def readEntry (aPoint : NMAccessPoint) : Option AccessPoint :=
  match aPoint.GetPropertySSID, aPoint.GetPropertyStrength, getAccessPointSecurity aPoint with
  | .ok ssid, .ok strength, .ok security =>
    if ssid ≠ "" then
      some { SSID := ssid, Security := security, Strength := strength, Path := aPoint.GetPath }
    else none
  | _, _, _ => none

/-- The entry of the last access point in query order that contributes an entry
with the SSID `ssid` ("later entries in the same pass overwrite earlier ones
with the same SSID"). -/
def lastReadable : List NMAccessPoint → String → Option AccessPoint
  | [], _ => none
  | aPoint :: rest, ssid =>
    match lastReadable rest ssid with
    | some a => some a
    | none =>
      match readEntry aPoint with
      | some a => if a.SSID = ssid then some a else none
      | none => none

/-! ## Further services and access points -/

/-- Whether a call adds and activates a wireless connection. -/
def Call.isAddWireless : Call → Bool
  | .AddAndActivateWirelessConnection _ _ => true
  | _ => false

/-- The hotspot fields recorded at each `AddAndActivateWirelessConnection` of a
trace. -/
def hotSpotAtAddWireless (trace : List Event) : List (Bool × Option ActiveConnection) :=
  (trace.filter (fun e => e.call.isAddWireless)).map
    (fun e => (e.isHotSpotCreated, e.HotSpotConnection))

/-- A service on which the connection profile of an active connection cannot be
read, so that `CloseHotSpot` fails at its first call; everything else
succeeds. -/
def envCloseFails : Env :=
  { envAllGood with GetPropertyConnection := fun _ _ => .error "bus error" }

/-- An access point "Corp" that advertises 802.1X key management in its RSN
flags (CCMP + 802.1X). -/
def corpAP : NMAccessPoint :=
  { GetPath := "/ap/9", GetPropertySSID := .ok "Corp", GetPropertyStrength := .ok 60,
    GetPropertyFlags := .ok 1, GetPropertyWPAFlags := .ok 0, GetPropertyRSNFlags := .ok 0x288 }

/-! ## The security classifier -/

theorem classifyFlags_cases (flag wpaFlag rsnFlag : Nat) :
    classifyFlags flag wpaFlag rsnFlag =
      (if (flag &&& 1) = 1 ∧ wpaFlag = 0 ∧ rsnFlag = 0 then 1 else 0)
      + (if wpaFlag ≠ 0 then 2 else 0)
      + (if rsnFlag ≠ 0 then 4 else 0)
      + (if (wpaFlag &&& 512) = 512 ∨ (rsnFlag &&& 512) = 512 then 8 else 0) := by
  unfold classifyFlags addU32 NONE WEP WPA WPA2 ENTERPRISE ApFlagsPrivacy ApSecNone
    ApSecKeyMgmt8021X
  split_ifs <;> norm_num

/-- C1: when the three flag reads of an access point succeed with 32-bit values
`flags`, `wpaFlags`, `rsnFlags`, `getAccessPointSecurity` returns a value `s`
that has the WEP bit iff the privacy bit is set and both flag sets are zero, the
WPA bit iff `wpaFlags` is non-zero, the WPA2 bit iff `rsnFlags` is non-zero, the
ENTERPRISE bit iff bit `0x200` is set in `wpaFlags` or `rsnFlags`, and no other
bit; privacy alone gives WEP, nothing at all gives NONE, and RSN flags with the
802.1X bit and no WPA flags give 12. -/
theorem getAccessPointSecurity_bits (ap : NMAccessPoint) (flags wpaFlags rsnFlags : Nat)
    (_hf32 : flags < 2 ^ 32) (_hw32 : wpaFlags < 2 ^ 32) (_hr32 : rsnFlags < 2 ^ 32)
    (hf : ap.GetPropertyFlags = .ok flags) (hw : ap.GetPropertyWPAFlags = .ok wpaFlags)
    (hr : ap.GetPropertyRSNFlags = .ok rsnFlags) :
    ∃ s : SECURITY, getAccessPointSecurity ap = .ok s
      ∧ ((s &&& WEP) = WEP ↔ ((flags &&& 0x1) = 0x1 ∧ wpaFlags = 0 ∧ rsnFlags = 0))
      ∧ ((s &&& WPA) = WPA ↔ wpaFlags ≠ 0)
      ∧ ((s &&& WPA2) = WPA2 ↔ rsnFlags ≠ 0)
      ∧ ((s &&& ENTERPRISE) = ENTERPRISE ↔
          ((wpaFlags &&& 0x200) = 0x200 ∨ (rsnFlags &&& 0x200) = 0x200))
      ∧ (∀ i, 4 ≤ i → s.testBit i = false)
      ∧ ((flags &&& 0x1) = 0x1 → wpaFlags = 0 → rsnFlags = 0 → s = WEP)
      ∧ ((flags &&& 0x1) ≠ 0x1 → wpaFlags = 0 → rsnFlags = 0 → s = NONE)
      ∧ (rsnFlags ≠ 0 → (rsnFlags &&& 0x200) = 0x200 → wpaFlags = 0 → s = WPA2 + ENTERPRISE) := by
  refine ⟨classifyFlags flags wpaFlags rsnFlags, ?_, ?_⟩
  · simp [getAccessPointSecurity, hf, hw, hr]
  · have hlt : classifyFlags flags wpaFlags rsnFlags < 16 := by
      rw [classifyFlags_cases]; split_ifs <;> norm_num
    have hbig : ∀ i, 4 ≤ i → (classifyFlags flags wpaFlags rsnFlags).testBit i = false := by
      intro i hi
      apply Nat.testBit_lt_two_pow
      calc classifyFlags flags wpaFlags rsnFlags < 2 ^ 4 := hlt
        _ ≤ 2 ^ i := Nat.pow_le_pow_right (by norm_num) hi
    clear hlt hf hw hr
    refine ⟨?_, ?_, ?_, ?_, hbig, ?_, ?_, ?_⟩ <;>
      rw [classifyFlags_cases] <;> simp only [WEP, WPA, WPA2, ENTERPRISE, NONE] <;>
      split_ifs <;> simp_all <;> decide

theorem getAccessPointSecurity_bits_witness :
    ∃ s : SECURITY, getAccessPointSecurity homeAP = .ok s
      ∧ ((s &&& WEP) = WEP ↔ (((1 : Nat) &&& 0x1) = 0x1 ∧ (0 : Nat) = 0 ∧ (0x188 : Nat) = 0))
      ∧ ((s &&& WPA) = WPA ↔ (0 : Nat) ≠ 0)
      ∧ ((s &&& WPA2) = WPA2 ↔ (0x188 : Nat) ≠ 0)
      ∧ ((s &&& ENTERPRISE) = ENTERPRISE ↔
          (((0 : Nat) &&& 0x200) = 0x200 ∨ ((0x188 : Nat) &&& 0x200) = 0x200))
      ∧ (∀ i, 4 ≤ i → s.testBit i = false)
      ∧ (((1 : Nat) &&& 0x1) = 0x1 → (0 : Nat) = 0 → (0x188 : Nat) = 0 → s = WEP)
      ∧ (((1 : Nat) &&& 0x1) ≠ 0x1 → (0 : Nat) = 0 → (0x188 : Nat) = 0 → s = NONE)
      ∧ ((0x188 : Nat) ≠ 0 → ((0x188 : Nat) &&& 0x200) = 0x200 → (0 : Nat) = 0 →
          s = WPA2 + ENTERPRISE) :=
  getAccessPointSecurity_bits homeAP 1 0 0x188 (by decide) (by decide) (by decide) rfl rfl rfl

/-- C2: `SECURITY.String` compares the whole value with each single flag, so a
combined value gets the label "none": WPA2 + ENTERPRISE (which the classifier
returns for RSN flags `0x200`) and WPA + WPA2 both render as "none" although
they contain the ENTERPRISE, WPA2 and WPA bits. -/
theorem SECURITY_String_combined_is_none :
    classifyFlags 0 0 0x200 = WPA2 + ENTERPRISE
      ∧ ((WPA2 + ENTERPRISE) &&& ENTERPRISE) = ENTERPRISE
      ∧ SECURITY.String (WPA2 + ENTERPRISE) = "none"
      ∧ ((WPA + WPA2) &&& WPA2) = WPA2
      ∧ SECURITY.String (WPA + WPA2) = "none" := by
  decide

/-! ## The scan -/

theorem rangeOrder_perm {β : Type} (seed : Nat) (l : List β) : (rangeOrder seed l).Perm l := by
  unfold rangeOrder
  have hpos : 0 < l.permutations.length := by
    rw [List.length_permutations]; exact Nat.factorial_pos _
  have hlt : seed % l.permutations.length < l.permutations.length := Nat.mod_lt _ hpos
  rw [List.getD_eq_getElem _ _ hlt]
  exact List.mem_permutations.mp (List.getElem_mem hlt)

theorem rangeOrder_nil {β : Type} (seed : Nat) : rangeOrder seed ([] : List β) = [] :=
  List.Perm.eq_nil (rangeOrder_perm seed [])

theorem queryCount_record_query (w : World) (ok : Bool) :
    queryCount (w.record .GetAccessPoints ok).trace = queryCount w.trace + 1 := by
  simp [queryCount, World.record, List.filter_append]

theorem queryCount_record_sleep (w : World) (n : Nat) (ok : Bool) :
    queryCount (w.record (.Sleep n) ok).trace = queryCount w.trace := by
  simp [queryCount, World.record, List.filter_append]

theorem getAccessPointLoop_empty (env : Env) (retryLimit : Int)
    (hempty : ∀ tr, ∃ aps, env.GetAccessPoints tr = .ok aps ∧ scanPass aps = []) :
    ∀ (fuel : Nat) (try_ : Int) (err : Option String) (w : World),
      ∃ w', getAccessPointLoop env retryLimit fuel try_ [] err w = .noFuel w'
        ∧ queryCount w'.trace = queryCount w.trace + fuel := by
  intro fuel
  induction fuel with
  | zero => intro try_ err w; exact ⟨w, rfl, rfl⟩
  | succ n ih =>
    intro try_ err w
    obtain ⟨aps, h1, h2⟩ := hempty w.trace
    obtain ⟨w', hw', hc⟩ := ih (try_ + 1)
      (if try_ ≥ retryLimit then some "no accesspoint found" else none)
      (((w.record .GetAccessPoints true)).record (.Sleep 2) true)
    refine ⟨w', ?_, ?_⟩
    · simp only [getAccessPointLoop, h1, h2, List.map_nil, rangeOrder_nil, List.append_nil,
        List.length_nil, if_true]
      exact hw'
    · rw [hc, queryCount_record_sleep, queryCount_record_query]; omega

/-- C3: when every query succeeds and yields no usable access point,
`getAccessPoint` does not stop after `N + 1` queries: the error assigned once
the retry limit is reached is followed by `goto start`, so however many passes
are allowed the function has not returned and has made one query per pass. -/
theorem getAccessPoint_empty_never_returns (env : Env)
    (hempty : ∀ tr, ∃ aps, env.GetAccessPoints tr = .ok aps ∧ scanPass aps = [])
    (fuel : Nat) (N : Int) (w : World) :
    ∃ w', getAccessPoint env fuel N w = .noFuel w'
      ∧ queryCount w'.trace = queryCount w.trace + fuel :=
  getAccessPointLoop_empty env N hempty fuel 0 none w

theorem getAccessPoint_empty_never_returns_witness :
    (∀ tr, ∃ aps, envNoAP.GetAccessPoints tr = .ok aps ∧ scanPass aps = [])
      ∧ ∃ w', getAccessPoint envNoAP 7 3 worldFresh = .noFuel w'
        ∧ queryCount w'.trace = queryCount worldFresh.trace + 7 :=
  ⟨fun _ => ⟨[], rfl, rfl⟩,
    getAccessPoint_empty_never_returns envNoAP (fun _ => ⟨[], rfl, rfl⟩) 7 3 worldFresh⟩

theorem mapSet_keys {β : Type} (m : GoMap β) (k : String) (v : β) :
    (mapSet m k v).map Prod.fst
      = if k ∈ m.map Prod.fst then m.map Prod.fst else m.map Prod.fst ++ [k] := by
  induction m with
  | nil => simp [mapSet]
  | cons hd tl ih =>
    obtain ⟨k', v'⟩ := hd
    by_cases h : k' = k
    · subst h; simp [mapSet]
    · have h' : ¬ k = k' := fun e => h e.symm
      simp only [mapSet, h, if_false, List.map_cons, ih, List.mem_cons, h', false_or]
      split_ifs <;> simp

theorem mem_mapSet {β : Type} (m : GoMap β) (k : String) (v : β) (p : String × β)
    (hp : p ∈ mapSet m k v) : p ∈ m ∨ p = (k, v) := by
  induction m with
  | nil => simp [mapSet] at hp; exact Or.inr hp
  | cons hd tl ih =>
    obtain ⟨k', v'⟩ := hd
    by_cases h : k' = k
    · simp only [mapSet, h, if_true, List.mem_cons] at hp
      rcases hp with hp | hp
      · exact Or.inr hp
      · exact Or.inl (List.mem_cons_of_mem _ hp)
    · simp only [mapSet, h, if_false, List.mem_cons] at hp
      rcases hp with hp | hp
      · exact Or.inl (hp ▸ List.mem_cons_self _ _)
      · rcases ih hp with h1 | h1
        · exact Or.inl (List.mem_cons_of_mem _ h1)
        · exact Or.inr h1

theorem TempAPInv_mapSet (m : GoMap AccessPoint) (a : AccessPoint) (hm : TempAPInv m)
    (ha : a.SSID ≠ "") : TempAPInv (mapSet m a.SSID a) := by
  refine ⟨?_, ?_⟩
  · rw [mapSet_keys]
    split_ifs with h
    · exact hm.1
    · exact List.Nodup.append hm.1 (List.nodup_singleton _) (by simpa using h)
  · intro p hp
    rcases mem_mapSet m a.SSID a p hp with h | h
    · exact hm.2 p h
    · subst h; exact ⟨rfl, ha⟩

theorem TempAPInv_scanStep (m : GoMap AccessPoint) (aPoint : NMAccessPoint)
    (hm : TempAPInv m) : TempAPInv (scanStep m aPoint) := by
  unfold scanStep
  cases aPoint.GetPropertySSID with
  | error e => exact hm
  | ok ssid =>
    cases aPoint.GetPropertyStrength with
    | error e => exact hm
    | ok strength =>
      cases getAccessPointSecurity aPoint with
      | error e => exact hm
      | ok security =>
        by_cases h : ssid = ""
        · simp only [h, ne_eq, not_true_eq_false, if_false]; exact hm
        · simp only [ne_eq, h, not_false_eq_true, if_true]
          exact TempAPInv_mapSet m
            { SSID := ssid, Security := security, Strength := strength,
              Path := aPoint.GetPath } hm h

theorem TempAPInv_foldl (l : List NMAccessPoint) :
    ∀ m : GoMap AccessPoint, TempAPInv m → TempAPInv (l.foldl scanStep m) := by
  induction l with
  | nil => intro m hm; exact hm
  | cons hd tl ih => intro m hm; exact ih _ (TempAPInv_scanStep m hd hm)

theorem TempAPInv_scanPass (l : List NMAccessPoint) : TempAPInv (scanPass l) :=
  TempAPInv_foldl l [] ⟨List.nodup_nil, fun _ h => absurd h (List.not_mem_nil _)⟩

theorem sortSlice_perm (l : List AccessPoint) : (sortSlice l).Perm l :=
  List.perm_insertionSort _ l

theorem sortSlice_sorted (l : List AccessPoint) :
    (sortSlice l).Pairwise (fun a b => a.Strength ≥ b.Strength) := by
  haveI : IsTotal AccessPoint (fun a b => ¬ less b a) :=
    ⟨fun a b => by unfold less; omega⟩
  haveI : IsTrans AccessPoint (fun a b => ¬ less b a) :=
    ⟨fun a b c h1 h2 => by unfold less at *; omega⟩
  have h := List.sorted_insertionSort (fun a b => ¬ less b a) l
  refine List.Pairwise.imp ?_ h
  intro a b hab
  unfold less at hab
  omega

theorem ScanResultOK_of_scanPass (l : List NMAccessPoint) (seed : Nat) :
    ScanResultOK (sortSlice (rangeOrder seed ((scanPass l).map Prod.snd))) := by
  have hinv := TempAPInv_scanPass l
  have hperm : (sortSlice (rangeOrder seed ((scanPass l).map Prod.snd))).Perm
      ((scanPass l).map Prod.snd) :=
    (sortSlice_perm _).trans (rangeOrder_perm seed _)
  have hkeys : ((scanPass l).map Prod.snd).map (fun a => a.SSID) = (scanPass l).map Prod.fst := by
    rw [List.map_map]
    apply List.map_congr_left
    intro p hp
    exact (hinv.2 p hp).1
  refine ⟨?_, ?_, ?_⟩
  · rw [(hperm.map _).nodup_iff, hkeys]; exact hinv.1
  · intro a ha
    have ha' := hperm.mem_iff.mp ha
    obtain ⟨p, hp, rfl⟩ := List.mem_map.mp ha'
    rw [(hinv.2 p hp).1]; exact (hinv.2 p hp).2
  · intro i j hi hj hij
    exact (List.pairwise_iff_getElem.mp (sortSlice_sorted _)) i j hi hj hij

theorem getAccessPointLoop_ok (env : Env) (retryLimit : Int) :
    ∀ (fuel : Nat) (try_ : Int) (err : Option String) (w : World)
      (aps : List AccessPoint) (w' : World),
      getAccessPointLoop env retryLimit fuel try_ [] err w = .ret (aps, none) w' →
        ScanResultOK aps := by
  intro fuel
  induction fuel with
  | zero => intro try_ err w aps w' h; simp [getAccessPointLoop] at h
  | succ n ih =>
    intro try_ err w aps w' h
    unfold getAccessPointLoop at h
    cases hq : env.GetAccessPoints w.trace with
    | error e => rw [hq] at h; simp at h
    | ok activeAPoints =>
      rw [hq] at h
      simp only [List.nil_append] at h
      by_cases hlen :
          (rangeOrder (env.rangeSeed (w.record Call.GetAccessPoints true).trace)
            ((scanPass activeAPoints).map Prod.snd)).length = 0
      · rw [if_pos hlen] at h
        rw [List.length_eq_zero.mp hlen] at h
        exact ih _ _ _ _ _ h
      · rw [if_neg hlen] at h
        simp only [Res.ret.injEq, Prod.mk.injEq] at h
        rw [← h.1.1]
        exact ScanResultOK_of_scanPass _ _

/-- C4: whenever `getAccessPoint` returns without error, the list it returns has
no two entries with the same SSID, no entry with an empty SSID, and is ordered
by non-increasing strength. -/
theorem getAccessPoint_result_ok (env : Env) (fuel : Nat) (retryLimit : Int) (w : World)
    (aps : List AccessPoint) (w' : World)
    (h : getAccessPoint env fuel retryLimit w = .ret (aps, none) w') :
    (aps.map (fun a => a.SSID)).Nodup
      ∧ (∀ a ∈ aps, a.SSID ≠ "")
      ∧ ∀ (i j : Nat) (hi : i < aps.length) (hj : j < aps.length), i < j →
          aps[i].Strength ≥ aps[j].Strength :=
  getAccessPointLoop_ok env retryLimit fuel 0 none w aps w' h

theorem getAccessPoint_result_ok_witness :
    getAccessPoint envBusy 3 10 worldFresh
        = .ret (scanBusyResult, none) (getAccessPoint envBusy 3 10 worldFresh).world
      ∧ ((scanBusyResult.map (fun a => a.SSID)).Nodup
        ∧ (∀ a ∈ scanBusyResult, a.SSID ≠ "")
        ∧ ∀ (i j : Nat) (hi : i < scanBusyResult.length) (hj : j < scanBusyResult.length),
            i < j → scanBusyResult[i].Strength ≥ scanBusyResult[j].Strength) :=
  ⟨by decide,
    getAccessPoint_result_ok envBusy 3 10 worldFresh scanBusyResult
      (getAccessPoint envBusy 3 10 worldFresh).world (by decide)⟩

/-! ## Creating the hotspot -/

/-- C5: with a successful `AddAndActivateConnection`, 21 reads that never show
the activated state and a successful clean-up, `CreateHotSpot` returns a nil
error although the hotspot is not created: the error assigned on line 180 is
overwritten by the results of the clean-up calls, and `StartPortal` goes on to
start the HTTP server. -/
theorem CreateHotSpot_timeout_returns_nil :
    (CreateHotSpot envNeverActivated 3 worldFresh).value = some none
      ∧ (CreateHotSpot envNeverActivated 3 worldFresh).world.c.isHotSpotCreated = false
      ∧ (CreateHotSpot envNeverActivated 3 worldFresh).world.c.HotSpotConnection = none
      ∧ callCount Call.isGetPropertyState
          (CreateHotSpot envNeverActivated 3 worldFresh).world.trace = 21
      ∧ okCount Call.isDelete (CreateHotSpot envNeverActivated 3 worldFresh).world.trace = 1
      ∧ (StartPortal envNeverActivated 3 worldFresh).value = some ()
      ∧ (StartPortal envNeverActivated 3 worldFresh).world.c.isHotSpotCreated = false := by
  decide

/-- C6: when `AddAndActivateConnection` succeeds and the first read of the
activation state returns an error, `CreateHotSpot` returns that error without
calling `DeactivateConnection` or `Delete`: one profile was added and none was
deleted. On the time-out path the same function deactivates and deletes. -/
theorem CreateHotSpot_state_error_leaves_profile :
    (CreateHotSpot envStateReadFails 3 worldFresh).value = some (some "bus error")
      ∧ okCount Call.isAdd (CreateHotSpot envStateReadFails 3 worldFresh).world.trace = 1
      ∧ callCount Call.isDeactivate (CreateHotSpot envStateReadFails 3 worldFresh).world.trace = 0
      ∧ callCount Call.isDelete (CreateHotSpot envStateReadFails 3 worldFresh).world.trace = 0
      ∧ okCount Call.isAdd (CreateHotSpot envNeverActivated 3 worldFresh).world.trace = 1
      ∧ okCount Call.isDeactivate (CreateHotSpot envNeverActivated 3 worldFresh).world.trace = 1
      ∧ okCount Call.isDelete (CreateHotSpot envNeverActivated 3 worldFresh).world.trace = 1 := by
  decide

/-- C7: when `isHotSpotCreated` is true, `CreateHotSpot` returns the error
"Hotspot already created" and ends in the world it started in: no field of
the engine is changed and no call is recorded. -/
theorem CreateHotSpot_already_created (env : Env) (fuel : Nat) (w : World)
    (h : w.c.isHotSpotCreated = true) :
    CreateHotSpot env fuel w = .ret (some "CreateHotSpot - Hotspot already created") w := by
  unfold CreateHotSpot
  simp [h]

theorem CreateHotSpot_already_created_witness :
    (CreateHotSpot envAllGood 3 worldFresh).value = some none
      ∧ (CreateHotSpot envAllGood 3 worldFresh).world.c.isHotSpotCreated = true
      ∧ CreateHotSpot envAllGood 3 (CreateHotSpot envAllGood 3 worldFresh).world
          = .ret (some "CreateHotSpot - Hotspot already created")
              (CreateHotSpot envAllGood 3 worldFresh).world :=
  ⟨by decide, by decide,
    CreateHotSpot_already_created envAllGood 3 (CreateHotSpot envAllGood 3 worldFresh).world
      (by decide)⟩

/-! ## Connecting -/

/-- C8: when the new connection is activated and the read of the connectivity
returns an error, `Connect` does not return true: building the warning calls
`err.Error()` on the nil `err` and the call panics. With connectivity full,
limited, or none until the time-out it returns true. -/
theorem Connect_connectivity_error_panics :
    (Connect envConnectivityReadFails 3 "Home" "password123" "" worldPortalUp).isPanicked = true
      ∧ (Connect envConnectivityReadFails 3 "Home" "password123" "" worldPortalUp).value = none
      ∧ (Connect envAllGood 3 "Home" "password123" "" worldPortalUp).value = some true
      ∧ (Connect envConnectivityLimited 3 "Home" "password123" "" worldPortalUp).value = some true
      ∧ (Connect envConnectivityNone 3 "Home" "password123" "" worldPortalUp).value
          = some true := by
  decide

/-- C9: for an SSID that the re-scan does not find, `Connect` closes the portal,
fails the look-up and returns false right there: at return the hotspot is not
created, no hotspot connection is held and the HTTP server was not started
again. -/
theorem Connect_unknown_ssid_leaves_portal_closed :
    (Connect envAllGood 3 "Missing" "password123" "" worldPortalUp).value = some false
      ∧ (Connect envAllGood 3 "Missing" "password123" "" worldPortalUp).world.c.isHotSpotCreated
          = false
      ∧ (Connect envAllGood 3 "Missing" "password123" "" worldPortalUp).world.c.HotSpotConnection
          = none
      ∧ callCount Call.isStartHTTPServer
          (Connect envAllGood 3 "Missing" "password123" "" worldPortalUp).world.trace = 0
      ∧ worldPortalUp.c.isHotSpotCreated = true := by
  decide

/-! ### Frame lemmas: what the loops leave alone -/

theorem record_c (w : World) (call : Call) (ok : Bool) : (w.record call ok).c = w.c := rfl

theorem record_trace_grows (w : World) (call : Call) (ok : Bool) :
    w.trace <+: (w.record call ok).trace :=
  List.prefix_append _ _

theorem waitForConnectionStateLoop_frame (env : Env) (timeout : Int) (ac : ActiveConnection)
    (cs : Nat) :
    ∀ (fuel : Nat) (totalTime : Int) (w : World) (r : Bool × Option String) (w' : World),
      waitForConnectionStateLoop env timeout ac cs fuel totalTime w = .ret r w' →
        w'.c = w.c ∧ w.trace <+: w'.trace := by
  intro fuel
  induction fuel with
  | zero => intro totalTime w r w' h; simp [waitForConnectionStateLoop] at h
  | succ n ih =>
    intro totalTime w r w' h
    unfold waitForConnectionStateLoop at h
    cases hq : env.GetPropertyState w.trace ac with
    | error e =>
      rw [hq] at h
      simp only [Res.ret.injEq] at h
      rw [← h.2]
      exact ⟨rfl, record_trace_grows _ _ _⟩
    | ok state =>
      rw [hq] at h
      simp only at h
      split_ifs at h with h1 h2
      · simp only [Res.ret.injEq] at h
        rw [← h.2]
        exact ⟨rfl, record_trace_grows _ _ _⟩
      · simp only [Res.ret.injEq] at h
        rw [← h.2]
        exact ⟨rfl, record_trace_grows _ _ _⟩
      · obtain ⟨hc, hp⟩ := ih _ _ _ _ h
        exact ⟨hc, ((record_trace_grows _ _ _).trans (record_trace_grows _ _ _)).trans hp⟩

theorem getAccessPointLoop_frame (env : Env) (retryLimit : Int) :
    ∀ (fuel : Nat) (try_ : Int) (ap : List AccessPoint) (err : Option String) (w : World)
      (r : List AccessPoint × Option String) (w' : World),
      getAccessPointLoop env retryLimit fuel try_ ap err w = .ret r w' →
        w'.c = w.c ∧ w.trace <+: w'.trace := by
  intro fuel
  induction fuel with
  | zero => intro try_ ap err w r w' h; simp [getAccessPointLoop] at h
  | succ n ih =>
    intro try_ ap err w r w' h
    unfold getAccessPointLoop at h
    cases hq : env.GetAccessPoints w.trace with
    | error e =>
      rw [hq] at h
      simp only [Res.ret.injEq] at h
      rw [← h.2]
      exact ⟨rfl, record_trace_grows _ _ _⟩
    | ok activeAPoints =>
      rw [hq] at h
      dsimp only at h
      by_cases hlen :
          (ap ++ rangeOrder (env.rangeSeed (w.record Call.GetAccessPoints true).trace)
            ((scanPass activeAPoints).map Prod.snd)).length = 0
      · rw [if_pos hlen] at h
        obtain ⟨hc, hp⟩ := ih _ _ _ _ _ _ h
        exact ⟨hc, ((record_trace_grows _ _ _).trans (record_trace_grows _ _ _)).trans hp⟩
      · rw [if_neg hlen] at h
        simp only [Res.ret.injEq] at h
        rw [← h.2]
        exact ⟨rfl, record_trace_grows _ _ _⟩

theorem getAccessPointFromSSID_frame (env : Env) (fuel : Nat) (ssid : String) (w : World)
    (r : Except String NMAccessPoint) (w' : World)
    (h : getAccessPointFromSSID env fuel ssid w = .ret r w') :
    w'.c = w.c ∧ w.trace <+: w'.trace := by
  unfold getAccessPointFromSSID getAccessPoint at h
  cases hs : getAccessPointLoop env 10 fuel 0 [] none w with
  | noFuel w1 => rw [hs] at h; simp at h
  | panicked m w1 => rw [hs] at h; simp at h
  | ret a w1 =>
    obtain ⟨hc, hp⟩ := getAccessPointLoop_frame env 10 fuel 0 [] none w a w1 hs
    rw [hs] at h
    obtain ⟨aPoints, e⟩ := a
    cases e with
    | some e =>
      simp only [Res.ret.injEq] at h
      rw [← h.2]; exact ⟨hc, hp⟩
    | none =>
      simp only at h
      cases hfind : aPoints.find? (fun aPoint => decide (aPoint.SSID = ssid)) with
      | none =>
        rw [hfind] at h
        simp only [Res.ret.injEq] at h
        rw [← h.2]; exact ⟨hc, hp⟩
      | some aPoint =>
        rw [hfind] at h
        simp only at h
        cases hn : env.NewAccessPoint w1.trace aPoint.Path with
        | error e =>
          rw [hn] at h
          simp only [Res.ret.injEq] at h
          rw [← h.2]; exact ⟨hc, hp.trans (record_trace_grows _ _ _)⟩
        | ok accessPoint =>
          rw [hn] at h
          simp only [Res.ret.injEq] at h
          rw [← h.2]; exact ⟨hc, hp.trans (record_trace_grows _ _ _)⟩

theorem CloseHotSpot_ret_none (env : Env) (w w' : World)
    (h : CloseHotSpot env w = .ret none w') : w'.c.isHotSpotCreated = false := by
  unfold CloseHotSpot at h
  by_cases hc : w.c.isHotSpotCreated = true
  · rw [if_pos hc] at h
    cases hs : w.c.HotSpotConnection with
    | none => rw [hs] at h; simp at h
    | some hsConn =>
      rw [hs] at h
      simp only at h
      cases h1 : env.GetPropertyConnection w.trace hsConn with
      | error e => rw [h1] at h; simp at h
      | ok conn =>
        rw [h1] at h
        simp only at h
        cases h2 : env.DeactivateConnection
            (w.record (Call.GetPropertyConnection hsConn) true).trace hsConn with
        | some e => rw [h2] at h; simp at h
        | none =>
          rw [h2] at h
          simp only at h
          cases h3 : env.Delete
              ((w.record (Call.GetPropertyConnection hsConn) true).record
                (Call.DeactivateConnection hsConn) true).trace conn with
          | some e => rw [h3] at h; simp at h
          | none =>
            rw [h3] at h
            simp only [Res.ret.injEq, true_and] at h
            rw [← h]; rfl
  · rw [if_neg hc] at h
    simp only [Res.ret.injEq, true_and] at h
    rw [← h]
    simpa using hc

/-- C10: in an execution of `Connect` where the stale-profile deletion succeeds
(`hdel`), the hotspot close succeeds (`hclose`), the target access point is
found (`hlookup`), `AddAndActivateWirelessConnection` succeeds (`hadd`), the
polling of its activation state ends after the 20-unit time-out without the
activated state (`hpoll`), the profile clean-up succeeds (`hconn`, `hdelete`),
and inside `CreateHotSpot` the scan, `AddAndActivateConnection` and the polling
of the hotspot's activation succeed (`hscan`, `haddhp`, `hpollhp`): `Connect`
returns false, the profile of the failed connection was deleted, and at return
`isHotSpotCreated` is true with `HotSpotConnection` set to the new hotspot. -/
theorem Connect_failed_activation_reopens_portal (env : Env) (fuel : Nat)
    (ssid pwd identity : String) (w w1 w2 w3 w4 w6 w7 : World) (ap : NMAccessPoint)
    (wifiConn hpConn : ActiveConnection) (conn : Connection) (aps : List AccessPoint)
    (hdel : deleteConnectionIfSameNetworkExists env ssid w = (none, w1))
    (hclose : CloseHotSpot env w1 = .ret none w2)
    (hlookup : getAccessPointFromSSID env fuel ssid (w2.record .CloseHTTPServer true)
      = .ret (.ok ap) w3)
    (hadd : env.AddAndActivateWirelessConnection w3.trace
      (connectSettings (getWirelessCredentials ap pwd identity).1) ap.GetPath = .ok wifiConn)
    (hpoll : waitForConnectionState env 20 wifiConn NmActiveConnectionStateActivated
      (w3.record (.AddAndActivateWirelessConnection
        (connectSettings (getWirelessCredentials ap pwd identity).1) ap.GetPath) true)
      = .ret (false, none) w4)
    (hconn : env.GetPropertyConnection w4.trace wifiConn = .ok conn)
    (hdelete : env.Delete (w4.record (.GetPropertyConnection wifiConn) true).trace conn = none)
    (hscan : getAccessPoint env fuel 10
      ((w4.record (.GetPropertyConnection wifiConn) true).record (.Delete conn) true)
      = .ret (aps, none) w6)
    (haddhp : env.AddAndActivateConnection w6.trace
      (hotSpotSettings w4.c.Cfg w6.c.WifiInterface) = .ok hpConn)
    (hpollhp : waitForConnectionState env 20 hpConn NmActiveConnectionStateActivated
      ((w6.setAccessPoints aps).record
        (.AddAndActivateConnection (hotSpotSettings w4.c.Cfg w6.c.WifiInterface)) true)
      = .ret (true, none) w7) :
    ∃ w', Connect env fuel ssid pwd identity w = .ret false w'
      ∧ w'.c.isHotSpotCreated = true
      ∧ w'.c.HotSpotConnection = some hpConn
      ∧ ∃ e ∈ w'.trace, e.call = .Delete conn ∧ e.ok = true := by
  have hc2 : w2.c.isHotSpotCreated = false := CloseHotSpot_ret_none env w1 w2 hclose
  have hf3 := getAccessPointFromSSID_frame env fuel ssid _ _ w3 hlookup
  have hf4 := waitForConnectionStateLoop_frame env 20 wifiConn _ _ _ _ _ w4 hpoll
  have hf6 := getAccessPointLoop_frame env 10 fuel 0 [] none _ _ w6 hscan
  have hf7 := waitForConnectionStateLoop_frame env 20 hpConn _ _ _ _ _ w7 hpollhp
  have hc4 : w4.c.isHotSpotCreated = false := by
    rw [hf4.1, record_c, hf3.1, record_c]; exact hc2
  have hc5 : ((w4.record (.GetPropertyConnection wifiConn) true).record
      (.Delete conn) true).c.isHotSpotCreated = false := hc4
  have hcreate : CreateHotSpot env fuel
      ((w4.record (.GetPropertyConnection wifiConn) true).record (.Delete conn) true)
      = .ret none
          (((w7.setHotSpot true w7.c.HotSpotConnection).record
            (.StartDnsmasq w7.c.WifiInterface) true).setHotSpot true (some hpConn)) := by
    unfold CreateHotSpot
    rw [if_neg (by rw [hc5]; decide), hscan]
    simp only [World.setAccessPoints, record_c] at haddhp hpollhp ⊢
    rw [haddhp]
    simp only [hpollhp, if_true]
    rfl
  refine ⟨(((w7.setHotSpot true w7.c.HotSpotConnection).record
      (.StartDnsmasq w7.c.WifiInterface) true).setHotSpot true (some hpConn)).record
        .StartHTTPServer true, ?_, ?_, ?_, ?_⟩
  · unfold Connect
    simp only [hdel, ClosePortal, hclose, hlookup, hadd, hpoll, hconn, hdelete, StartPortal,
      hcreate, Bool.false_eq_true, if_false]
  · rfl
  · rfl
  · refine ⟨⟨.Delete conn, true, w4.c.isHotSpotCreated, w4.c.HotSpotConnection⟩, ?_, rfl, rfl⟩
    have hmem : (⟨.Delete conn, true, w4.c.isHotSpotCreated, w4.c.HotSpotConnection⟩ : Event)
        ∈ ((w4.record (.GetPropertyConnection wifiConn) true).record
            (.Delete conn) true).trace := by
      simp [World.record]
    have h6 := hf6.2.subset hmem
    have h7 := hf7.2.subset ((record_trace_grows _ _ _).subset h6)
    simp only [World.record, World.setHotSpot, List.mem_append, List.mem_singleton]
    exact Or.inl (Or.inl h7)

theorem Connect_failed_activation_reopens_portal_witness :
    ∃ w', Connect envWifiNeverActivated 3 "Home" "password123" "" worldPortalUp = .ret false w'
      ∧ w'.c.isHotSpotCreated = true
      ∧ w'.c.HotSpotConnection = some 1
      ∧ ∃ e ∈ w'.trace, e.call = .Delete 12 ∧ e.ok = true :=
  Connect_failed_activation_reopens_portal envWifiNeverActivated 3 "Home" "password123" ""
    worldPortalUp failW1 failW2 failW3 failW4 failW6 failW7 homeAP 2 1 12
    [⟨"Home", "/ap/1", 80, 4⟩, ⟨"Cafe", "/ap/2", 40, 0⟩]
    (by rfl) (by rfl) (by rfl) (by rfl) (by rfl) (by rfl) (by rfl) (by rfl) (by rfl) (by rfl)

/-! ## Credentials and the list shown by the portal -/

/-- C11: for an access point whose flag reads succeed with classification `s`,
`getWirelessCredentials` returns no error and exactly these sections (written
as association lists in the order of assignment): with the ENTERPRISE bit,
"802-11-wireless-security" with key-mgmt "wpa-eap" and "802-1x" with eap
["peap"], identity, password and phase2-auth "mschapv2"; otherwise with the
WPA2 or WPA bit, only "802-11-wireless-security" with key-mgmt "wpa-psk" and
the password as psk; otherwise with the WEP bit, only
"802-11-wireless-security" with wep-key-type 2 and the password as wep-key0;
otherwise no section. -/
theorem getWirelessCredentials_sections (ap : NMAccessPoint) (s : SECURITY) (p i : String)
    (hs : getAccessPointSecurity ap = .ok s) :
    getWirelessCredentials ap p i =
      (if (s &&& ENTERPRISE) = ENTERPRISE then
          [("802-11-wireless-security", [("key-mgmt", Value.str "wpa-eap")]),
            ("802-1x", [("eap", Value.strs ["peap"]), ("identity", Value.str i),
              ("password", Value.str p), ("phase2-auth", Value.str "mschapv2")])]
        else if (s &&& WPA2) = WPA2 ∨ (s &&& WPA) = WPA then
          [("802-11-wireless-security", [("key-mgmt", Value.str "wpa-psk"), ("psk", Value.str p)])]
        else if (s &&& WEP) = WEP then
          [("802-11-wireless-security",
            [("wep-key-type", Value.u32 2), ("wep-key0", Value.str p)])]
        else [], none) := by
  unfold getWirelessCredentials
  rw [hs]
  simp only
  split_ifs <;> simp [mapSet]

theorem getWirelessCredentials_sections_witness :
    getAccessPointSecurity homeAP = .ok WPA2
      ∧ getWirelessCredentials homeAP "password123" "" =
        ([("802-11-wireless-security",
          [("key-mgmt", Value.str "wpa-psk"), ("psk", Value.str "password123")])], none) :=
  ⟨rfl, getWirelessCredentials_sections homeAP WPA2 "password123" "" rfl⟩

/-- C12: `GetAccessPoint` returns a nil error and a list of the same length as
the cached list whose entry at each index has the SSID of the cached entry at
that index and `Security.String()` of its classification, and nothing else; an
empty cache gives an empty list, and the cache Home (80, WPA2), Cafe (40, NONE)
gives Home "wp2", Cafe "none" in that order. -/
theorem GetAccessPoint_maps_cache (c : Config) :
    (GetAccessPoint c).2 = none
      ∧ (GetAccessPoint c).1.length = c.AccessPoints.length
      ∧ (∀ (i : Nat) (h : i < c.AccessPoints.length) (h' : i < (GetAccessPoint c).1.length),
          (GetAccessPoint c).1[i]
            = { SSID := c.AccessPoints[i].SSID,
                Security := SECURITY.String c.AccessPoints[i].Security })
      ∧ (c.AccessPoints = [] → (GetAccessPoint c).1 = [])
      ∧ (c.AccessPoints = homeCafeList →
          (GetAccessPoint c).1 = [⟨"Home", "wp2"⟩, ⟨"Cafe", "none"⟩]) := by
  unfold GetAccessPoint
  by_cases hlen : c.AccessPoints.length > 0
  · simp only [hlen, if_true, List.length_map, List.getElem_map, true_and]
    refine ⟨fun _ _ _ => trivial, ?_, ?_⟩
    · intro h; rw [h]; rfl
    · intro h; rw [h]; decide
  · have hnil : c.AccessPoints = [] := by
      cases hc : c.AccessPoints with
      | nil => rfl
      | cons a l => rw [hc] at hlen; simp at hlen
    simp [hnil, homeCafeList]

theorem GetAccessPoint_maps_cache_witness :
    (GetAccessPoint { worldFresh.c with AccessPoints := homeCafeList }).1
      = [⟨"Home", "wp2"⟩, ⟨"Cafe", "none"⟩] :=
  (GetAccessPoint_maps_cache { worldFresh.c with AccessPoints := homeCafeList }).2.2.2.2 rfl

/-! ## The polling loops -/

theorem callCount_record (p : Call → Bool) (w : World) (call : Call) (ok : Bool) :
    callCount p (w.record call ok).trace = callCount p w.trace + (p call).toNat := by
  unfold callCount World.record
  cases hp : p call <;> simp [List.filter_append, hp]

theorem callCount_pollWorld (p : Call → Bool) (call : Call) :
    ∀ (k : Nat) (w : World),
      callCount p (pollWorld call w k).trace
        = callCount p w.trace + k * ((p call).toNat + (p (.Sleep 1)).toNat) := by
  intro k
  induction k with
  | zero => intro w; simp [pollWorld]
  | succ n ih =>
    intro w
    rw [pollWorld, ih, callCount_record, callCount_record]
    ring

theorem PollOutcome_callCount (p : Call → Bool) (read : List Event → Except String Nat)
    (call : Call) (isTarget : Nat → Prop) (t : Nat) (w : World) (r : Bool × Option String)
    (w' : World) (h : PollOutcome read call isTarget t w r w') :
    callCount p w'.trace
      ≤ callCount p w.trace + t * ((p call).toNat + (p (.Sleep 1)).toNat) + (p call).toNat := by
  obtain ⟨k, hk, _, hcase⟩ := h
  have hw : ∃ ok, w' = (pollWorld call w k).record call ok := by
    rcases hcase with ⟨_, _, _, _, h1⟩ | ⟨_, _, _, h1⟩ | ⟨_, _, _, _, _, h1⟩
    · exact ⟨true, h1⟩
    · exact ⟨false, h1⟩
    · exact ⟨true, h1⟩
  obtain ⟨ok, rfl⟩ := hw
  rw [callCount_record, callCount_pollWorld]
  have := Nat.mul_le_mul_right ((p call).toNat + (p (.Sleep 1)).toNat) hk
  omega

theorem PollOutcome_succ (read : List Event → Except String Nat) (call : Call)
    (isTarget : Nat → Prop) (m : Nat) (w : World) (r : Bool × Option String) (w' : World)
    (v : Nat) (hread : read w.trace = .ok v) (hv : ¬ isTarget v)
    (h : PollOutcome read call isTarget m ((w.record call true).record (.Sleep 1) true) r w') :
    PollOutcome read call isTarget (m + 1) w r w' := by
  obtain ⟨k, hk, hbefore, hcase⟩ := h
  refine ⟨k + 1, Nat.succ_le_succ hk, ?_, ?_⟩
  · intro i hi
    cases i with
    | zero => exact ⟨v, hread, hv⟩
    | succ j => exact hbefore j (Nat.lt_of_succ_lt_succ hi)
  · rcases hcase with h1 | h1 | ⟨hkm, h1⟩
    · exact Or.inl h1
    · exact Or.inr (Or.inl h1)
    · exact Or.inr (Or.inr ⟨by rw [hkm], h1⟩)

theorem waitForConnectionStateLoop_run (env : Env) (t : Nat) (ac : ActiveConnection) (cs : Nat) :
    ∀ (n T fuel : Nat) (w : World), T + n = t → n + 1 ≤ fuel →
      ∃ r w', waitForConnectionStateLoop env t ac cs fuel T w = .ret r w'
        ∧ PollOutcome (fun tr => env.GetPropertyState tr ac) (.GetPropertyState ac)
            (fun v => v = cs) n w r w' := by
  intro n
  induction n with
  | zero =>
    intro T fuel w hT hfuel
    obtain ⟨f, rfl⟩ : ∃ f, fuel = f + 1 := ⟨fuel - 1, by omega⟩
    unfold waitForConnectionStateLoop
    cases hq : env.GetPropertyState w.trace ac with
    | error e =>
      exact ⟨_, _, rfl, 0, Nat.le_refl 0, fun i hi => absurd hi (Nat.not_lt_zero i),
        Or.inr (Or.inl ⟨e, hq, rfl, rfl⟩)⟩
    | ok v =>
      by_cases hv : v = cs
      · refine ⟨(true, none), w.record (.GetPropertyState ac) true, by simp [hv], 0,
          Nat.le_refl 0, fun i hi => absurd hi (Nat.not_lt_zero i),
          Or.inl ⟨v, hq, hv, rfl, rfl⟩⟩
      · have hge : (T : Int) ≥ (t : Int) := by omega
        refine ⟨(false, none), w.record (.GetPropertyState ac) true, by simp [hv, hge], 0,
          Nat.le_refl 0, fun i hi => absurd hi (Nat.not_lt_zero i),
          Or.inr (Or.inr ⟨rfl, v, hq, hv, rfl, rfl⟩)⟩
  | succ m ih =>
    intro T fuel w hT hfuel
    obtain ⟨f, rfl⟩ : ∃ f, fuel = f + 1 := ⟨fuel - 1, by omega⟩
    unfold waitForConnectionStateLoop
    cases hq : env.GetPropertyState w.trace ac with
    | error e =>
      exact ⟨_, _, rfl, 0, Nat.zero_le _, fun i hi => absurd hi (Nat.not_lt_zero i),
        Or.inr (Or.inl ⟨e, hq, rfl, rfl⟩)⟩
    | ok v =>
      by_cases hv : v = cs
      · refine ⟨(true, none), w.record (.GetPropertyState ac) true, by simp [hv], 0,
          Nat.zero_le _, fun i hi => absurd hi (Nat.not_lt_zero i),
          Or.inl ⟨v, hq, hv, rfl, rfl⟩⟩
      · have hlt : ¬ ((T : Int) ≥ (t : Int)) := by omega
        obtain ⟨r, w', hrun, hout⟩ := ih (T + 1) f
          ((w.record (.GetPropertyState ac) true).record (.Sleep 1) true) (by omega) (by omega)
        refine ⟨r, w', ?_, PollOutcome_succ _ _ _ m w r w' v hq hv hout⟩
        simp only [hv, hlt, if_false]
        rw [← hrun]
        norm_cast

theorem waitForConnectivityLoop_run (env : Env) (t : Nat) :
    ∀ (n T fuel : Nat) (w : World), T + n = t → n + 1 ≤ fuel →
      ∃ r w', waitForConnectivityLoop env t fuel T w = .ret r w'
        ∧ PollOutcome env.GetPropertyConnectivity .GetPropertyConnectivity
            (fun v => v = NmConnectivityFull ∨ v = NmConnectivityLimited) n w r w' := by
  intro n
  induction n with
  | zero =>
    intro T fuel w hT hfuel
    obtain ⟨f, rfl⟩ : ∃ f, fuel = f + 1 := ⟨fuel - 1, by omega⟩
    unfold waitForConnectivityLoop
    cases hq : env.GetPropertyConnectivity w.trace with
    | error e =>
      exact ⟨_, _, rfl, 0, Nat.le_refl 0, fun i hi => absurd hi (Nat.not_lt_zero i),
        Or.inr (Or.inl ⟨e, hq, rfl, rfl⟩)⟩
    | ok v =>
      by_cases hv : v = NmConnectivityFull ∨ v = NmConnectivityLimited
      · refine ⟨(true, none), w.record .GetPropertyConnectivity true, by simp [hv], 0,
          Nat.le_refl 0, fun i hi => absurd hi (Nat.not_lt_zero i),
          Or.inl ⟨v, hq, hv, rfl, rfl⟩⟩
      · have hge : (T : Int) ≥ (t : Int) := by omega
        refine ⟨(false, none), w.record .GetPropertyConnectivity true, by simp [hv, hge], 0,
          Nat.le_refl 0, fun i hi => absurd hi (Nat.not_lt_zero i),
          Or.inr (Or.inr ⟨rfl, v, hq, hv, rfl, rfl⟩)⟩
  | succ m ih =>
    intro T fuel w hT hfuel
    obtain ⟨f, rfl⟩ : ∃ f, fuel = f + 1 := ⟨fuel - 1, by omega⟩
    unfold waitForConnectivityLoop
    cases hq : env.GetPropertyConnectivity w.trace with
    | error e =>
      exact ⟨_, _, rfl, 0, Nat.zero_le _, fun i hi => absurd hi (Nat.not_lt_zero i),
        Or.inr (Or.inl ⟨e, hq, rfl, rfl⟩)⟩
    | ok v =>
      by_cases hv : v = NmConnectivityFull ∨ v = NmConnectivityLimited
      · refine ⟨(true, none), w.record .GetPropertyConnectivity true, by simp [hv], 0,
          Nat.zero_le _, fun i hi => absurd hi (Nat.not_lt_zero i),
          Or.inl ⟨v, hq, hv, rfl, rfl⟩⟩
      · have hlt : ¬ ((T : Int) ≥ (t : Int)) := by omega
        obtain ⟨r, w', hrun, hout⟩ := ih (T + 1) f
          ((w.record .GetPropertyConnectivity true).record (.Sleep 1) true) (by omega) (by omega)
        refine ⟨r, w', ?_, PollOutcome_succ _ _ _ m w r w' v hq hv hout⟩
        simp only [hv, hlt, if_false]
        rw [← hrun]
        norm_cast

theorem waitForConnectionStateLoop_more_fuel (env : Env) (timeout : Int) (ac : ActiveConnection)
    (cs : Nat) (d : Nat) :
    ∀ (fuel : Nat) (totalTime : Int) (w : World) (r : Bool × Option String) (w' : World),
      waitForConnectionStateLoop env timeout ac cs fuel totalTime w = .ret r w' →
        waitForConnectionStateLoop env timeout ac cs (fuel + d) totalTime w = .ret r w' := by
  intro fuel
  induction fuel with
  | zero => intro totalTime w r w' h; simp [waitForConnectionStateLoop] at h
  | succ n ih =>
    intro totalTime w r w' h
    rw [Nat.add_right_comm]
    unfold waitForConnectionStateLoop at h ⊢
    cases hq : env.GetPropertyState w.trace ac with
    | error e => rw [hq] at h; exact h
    | ok state =>
      rw [hq] at h
      dsimp only at h ⊢
      split_ifs at h ⊢ with h1 h2
      · exact h
      · exact h
      · exact ih _ _ _ _ h

theorem waitForConnectivityLoop_more_fuel (env : Env) (timeout : Int) (d : Nat) :
    ∀ (fuel : Nat) (totalTime : Int) (w : World) (r : Bool × Option String) (w' : World),
      waitForConnectivityLoop env timeout fuel totalTime w = .ret r w' →
        waitForConnectivityLoop env timeout (fuel + d) totalTime w = .ret r w' := by
  intro fuel
  induction fuel with
  | zero => intro totalTime w r w' h; simp [waitForConnectivityLoop] at h
  | succ n ih =>
    intro totalTime w r w' h
    rw [Nat.add_right_comm]
    unfold waitForConnectivityLoop at h ⊢
    cases hq : env.GetPropertyConnectivity w.trace with
    | error e => rw [hq] at h; exact h
    | ok state =>
      rw [hq] at h
      dsimp only at h ⊢
      split_ifs at h ⊢ with h1 h2
      · exact h
      · exact h
      · exact ih _ _ _ _ h

/-- C14: for every time-out `t ≥ 0`, `waitForConnectionState` and
`waitForConnectivity` return, and with any larger bound on the number of passes
the loop returns the same; the run is described by `PollOutcome`: true at the
first read that shows the target (for the connectivity: full or limited) when
that read is among the first `t + 1`, false with the error at the first failed
read, false without error when all `t + 1` reads succeed and none shows the
target; at most `t + 1` reads and at most `t` sleeps are made. -/
theorem waitFor_terminates_and_decides (env : Env) (t : Nat) (ac : ActiveConnection) (cs : Nat)
    (w : World) :
    (∃ r w', waitForConnectionState env t ac cs w = .ret r w'
        ∧ (∀ fuel, t + 1 ≤ fuel → waitForConnectionStateLoop env t ac cs fuel 0 w = .ret r w')
        ∧ PollOutcome (fun tr => env.GetPropertyState tr ac) (.GetPropertyState ac)
            (fun v => v = cs) t w r w'
        ∧ callCount Call.isGetPropertyState w'.trace
            ≤ callCount Call.isGetPropertyState w.trace + (t + 1)
        ∧ callCount Call.isSleep w'.trace ≤ callCount Call.isSleep w.trace + t)
      ∧ (∃ r w', waitForConnectivity env t w = .ret r w'
        ∧ (∀ fuel, t + 1 ≤ fuel → waitForConnectivityLoop env t fuel 0 w = .ret r w')
        ∧ PollOutcome env.GetPropertyConnectivity .GetPropertyConnectivity
            (fun v => v = NmConnectivityFull ∨ v = NmConnectivityLimited) t w r w'
        ∧ callCount Call.isGetPropertyConnectivity w'.trace
            ≤ callCount Call.isGetPropertyConnectivity w.trace + (t + 1)
        ∧ callCount Call.isSleep w'.trace ≤ callCount Call.isSleep w.trace + t) := by
  constructor
  · obtain ⟨r, w', hrun, hout⟩ :=
      waitForConnectionStateLoop_run env t ac cs t 0 (t + 1) w (by omega) (Nat.le_refl _)
    refine ⟨r, w', ?_, ?_, hout, ?_, ?_⟩
    · unfold waitForConnectionState
      simpa using hrun
    · intro fuel hfuel
      obtain ⟨d, rfl⟩ : ∃ d, fuel = (t + 1) + d := ⟨fuel - (t + 1), by omega⟩
      exact waitForConnectionStateLoop_more_fuel env t ac cs d (t + 1) 0 w r w'
        (by simpa using hrun)
    · have h := PollOutcome_callCount Call.isGetPropertyState _ _ _ t w r w' hout
      simpa [Call.isGetPropertyState, Nat.add_assoc] using h
    · have h := PollOutcome_callCount Call.isSleep _ _ _ t w r w' hout
      simpa [Call.isSleep] using h
  · obtain ⟨r, w', hrun, hout⟩ :=
      waitForConnectivityLoop_run env t t 0 (t + 1) w (by omega) (Nat.le_refl _)
    refine ⟨r, w', ?_, ?_, hout, ?_, ?_⟩
    · unfold waitForConnectivity
      simpa using hrun
    · intro fuel hfuel
      obtain ⟨d, rfl⟩ : ∃ d, fuel = (t + 1) + d := ⟨fuel - (t + 1), by omega⟩
      exact waitForConnectivityLoop_more_fuel env t d (t + 1) 0 w r w' (by simpa using hrun)
    · have h := PollOutcome_callCount Call.isGetPropertyConnectivity _ _ _ t w r w' hout
      simpa [Call.isGetPropertyConnectivity, Nat.add_assoc] using h
    · have h := PollOutcome_callCount Call.isSleep _ _ _ t w r w' hout
      simpa [Call.isSleep] using h

/-! ## The last pass of the scan -/

theorem scanStep_eq (m : GoMap AccessPoint) (aPoint : NMAccessPoint) :
    scanStep m aPoint = match readEntry aPoint with
      | some a => mapSet m a.SSID a
      | none => m := by
  unfold scanStep readEntry
  cases aPoint.GetPropertySSID with
  | error e => rfl
  | ok ssid =>
    cases aPoint.GetPropertyStrength with
    | error e => rfl
    | ok strength =>
      cases getAccessPointSecurity aPoint with
      | error e => rfl
      | ok security =>
        by_cases h : ssid = ""
        · simp [h]
        · simp [h]

theorem readEntry_ssid (aPoint : NMAccessPoint) (a : AccessPoint)
    (h : readEntry aPoint = some a) : a.SSID ≠ "" := by
  unfold readEntry at h
  cases h1 : aPoint.GetPropertySSID with
  | error e => rw [h1] at h; simp at h
  | ok ssid =>
    cases h2 : aPoint.GetPropertyStrength with
    | error e => rw [h1, h2] at h; simp at h
    | ok strength =>
      cases h3 : getAccessPointSecurity aPoint with
      | error e => rw [h1, h2, h3] at h; simp at h
      | ok security =>
        rw [h1, h2, h3] at h
        by_cases hs : ssid = ""
        · simp [hs] at h
        · simp [hs] at h
          rw [← h]; exact hs

theorem mapGet_mapSet {β : Type} (m : GoMap β) (k k' : String) (v : β) :
    mapGet (mapSet m k v) k' = if k = k' then some v else mapGet m k' := by
  induction m with
  | nil => simp [mapSet, mapGet]
  | cons hd tl ih =>
    obtain ⟨k0, v0⟩ := hd
    by_cases h : k0 = k
    · subst h
      by_cases h2 : k0 = k' <;> simp [mapSet, mapGet, h2]
    · by_cases h2 : k0 = k'
      · subst h2
        have h3 : ¬ k = k0 := fun e => h e.symm
        simp [mapSet, mapGet, h, h3]
      · simp [mapSet, mapGet, h, h2, ih]

theorem mapGet_foldl_scanStep (l : List NMAccessPoint) :
    ∀ (m : GoMap AccessPoint) (k : String),
      mapGet (l.foldl scanStep m) k = match lastReadable l k with
        | some a => some a
        | none => mapGet m k := by
  induction l with
  | nil => intro m k; rfl
  | cons hd tl ih =>
    intro m k
    rw [List.foldl_cons, ih, lastReadable]
    cases htl : lastReadable tl k with
    | some a => rfl
    | none =>
      simp only
      rw [scanStep_eq]
      cases hr : readEntry hd with
      | none => rfl
      | some a =>
        simp only
        rw [mapGet_mapSet]
        by_cases hk : a.SSID = k <;> simp [hk]

theorem mapGet_scanPass (l : List NMAccessPoint) (k : String) :
    mapGet (scanPass l) k = lastReadable l k := by
  unfold scanPass
  rw [mapGet_foldl_scanStep]
  cases lastReadable l k <;> rfl

theorem mem_iff_mapGet {β : Type} (m : GoMap β) (k : String) (v : β)
    (hm : (m.map Prod.fst).Nodup) : (k, v) ∈ m ↔ mapGet m k = some v := by
  induction m with
  | nil => simp [mapGet]
  | cons hd tl ih =>
    obtain ⟨k0, v0⟩ := hd
    simp only [List.map_cons, List.nodup_cons] at hm
    by_cases h : k0 = k
    · subst h
      simp only [List.mem_cons, Prod.mk.injEq, true_and, mapGet, if_true, Option.some.injEq]
      constructor
      · rintro (h1 | h1)
        · exact h1.symm
        · exact absurd (List.mem_map_of_mem Prod.fst h1) hm.1
      · intro h1; exact Or.inl h1.symm
    · have h' : ¬ k = k0 := fun e => h e.symm
      simp only [List.mem_cons, Prod.mk.injEq, h', false_and, false_or, mapGet, h, if_false]
      exact ih hm.2

theorem mem_scanPass_iff (l : List NMAccessPoint) (a : AccessPoint) :
    a ∈ (scanPass l).map Prod.snd ↔ ∃ ssid, lastReadable l ssid = some a := by
  have hinv := TempAPInv_scanPass l
  constructor
  · intro h
    obtain ⟨p, hp, rfl⟩ := List.mem_map.mp h
    refine ⟨p.1, ?_⟩
    rw [← mapGet_scanPass]
    exact (mem_iff_mapGet _ _ _ hinv.1).mp hp
  · rintro ⟨ssid, h⟩
    rw [← mapGet_scanPass] at h
    exact List.mem_map.mpr ⟨(ssid, a), (mem_iff_mapGet _ _ _ hinv.1).mpr h, rfl⟩

theorem lastReadable_ssid (l : List NMAccessPoint) (ssid : String) (a : AccessPoint)
    (h : lastReadable l ssid = some a) : a.SSID = ssid := by
  induction l with
  | nil => simp [lastReadable] at h
  | cons hd tl ih =>
    rw [lastReadable] at h
    cases htl : lastReadable tl ssid with
    | some b =>
      rw [htl] at h
      simp only [Option.some.injEq] at h
      subst h
      exact ih htl
    | none =>
      rw [htl] at h
      simp only at h
      cases hr : readEntry hd with
      | none => rw [hr] at h; simp at h
      | some b =>
        rw [hr] at h
        simp only at h
        by_cases hb : b.SSID = ssid
        · simp [hb] at h; rw [← h]; exact hb
        · simp [hb] at h

theorem lastReadable_isSome_iff (l : List NMAccessPoint) (ssid : String) :
    (lastReadable l ssid).isSome
      ↔ ∃ aPoint ∈ l, ∃ a, readEntry aPoint = some a ∧ a.SSID = ssid := by
  induction l with
  | nil => simp [lastReadable]
  | cons hd tl ih =>
    rw [lastReadable]
    cases htl : lastReadable tl ssid with
    | some b =>
      rw [htl] at ih
      simp only [Option.isSome_some, true_iff] at ih ⊢
      obtain ⟨ap, hap, a, ha⟩ := ih
      exact ⟨ap, List.mem_cons_of_mem _ hap, a, ha⟩
    | none =>
      rw [htl] at ih
      simp only [Option.isSome_none, Bool.false_eq_true, false_iff, not_exists, not_and] at ih
      simp only
      constructor
      · intro h
        cases hr : readEntry hd with
        | none => rw [hr] at h; simp at h
        | some b =>
          rw [hr] at h
          by_cases hb : b.SSID = ssid
          · exact ⟨hd, List.mem_cons_self _ _, b, hr, hb⟩
          · simp [hb] at h
      · rintro ⟨ap, hap, a, ha, hs⟩
        rcases List.mem_cons.mp hap with rfl | hmem
        · simp [ha, hs]
        · exact absurd hs (ih ap hmem a ha)

theorem getAccessPointLoop_last_pass (env : Env) (retryLimit : Int) :
    ∀ (fuel : Nat) (try_ : Int) (err : Option String) (w : World)
      (aps : List AccessPoint) (w' : World),
      getAccessPointLoop env retryLimit fuel try_ [] err w = .ret (aps, none) w' →
        ∃ activeAPoints, env.GetAccessPoints w'.trace.dropLast = .ok activeAPoints
          ∧ aps.Perm ((scanPass activeAPoints).map Prod.snd) := by
  intro fuel
  induction fuel with
  | zero => intro try_ err w aps w' h; simp [getAccessPointLoop] at h
  | succ n ih =>
    intro try_ err w aps w' h
    unfold getAccessPointLoop at h
    cases hq : env.GetAccessPoints w.trace with
    | error e => rw [hq] at h; simp at h
    | ok activeAPoints =>
      rw [hq] at h
      simp only [List.nil_append] at h
      by_cases hlen :
          (rangeOrder (env.rangeSeed (w.record Call.GetAccessPoints true).trace)
            ((scanPass activeAPoints).map Prod.snd)).length = 0
      · rw [if_pos hlen] at h
        rw [List.length_eq_zero.mp hlen] at h
        exact ih _ _ _ _ _ h
      · rw [if_neg hlen] at h
        simp only [Res.ret.injEq, Prod.mk.injEq] at h
        refine ⟨activeAPoints, ?_, ?_⟩
        · rw [← h.2]
          simpa [World.record] using hq
        · rw [← h.1.1]
          exact (sortSlice_perm _).trans (rangeOrder_perm _ _)

theorem filter_key_of_nodup (aps : List AccessPoint) (ssid : String) (o : Option AccessPoint)
    (hnd : (aps.map (fun a => a.SSID)).Nodup)
    (hsome : ∀ a, o = some a → a ∈ aps ∧ a.SSID = ssid)
    (hnone : o = none → ∀ a ∈ aps, a.SSID ≠ ssid) :
    aps.filter (fun a => a.SSID = ssid) = o.toList := by
  cases o with
  | none =>
    simp only [Option.toList_none, List.filter_eq_nil_iff, decide_eq_true_eq]
    exact hnone rfl
  | some a =>
    obtain ⟨hmem, hssid⟩ := hsome a rfl
    have hinj := List.inj_on_of_nodup_map hnd
    have hall : ∀ b ∈ aps.filter (fun a => a.SSID = ssid), b = a := by
      intro b hb
      obtain ⟨hb1, hb2⟩ := List.mem_filter.mp hb
      simp only [decide_eq_true_eq] at hb2
      exact hinj hb1 hmem (by rw [hb2, hssid])
    have hain : a ∈ aps.filter (fun a => a.SSID = ssid) :=
      List.mem_filter.mpr ⟨hmem, by simpa using hssid⟩
    have hnodup : (aps.filter (fun a => a.SSID = ssid)).Nodup :=
      (List.Nodup.of_map _ hnd).filter _
    revert hall hain hnodup
    generalize aps.filter (fun a => a.SSID = ssid) = F
    intro hall hain hnodup
    match F, hall, hain, hnodup with
    | [], _, hain, _ => exact absurd hain (List.not_mem_nil _)
    | [x], hall, _, _ => simp [hall x (List.mem_singleton_self x)]
    | x :: y :: t, hall, _, hnodup =>
      have hx := hall x (List.mem_cons_self _ _)
      have hy := hall y (List.mem_cons_of_mem _ (List.mem_cons_self _ _))
      rw [hx, hy] at hnodup
      simp at hnodup

/-- C15: when `getAccessPoint` returns without error, its last call is a query
answered with some list `activeAPoints`, and for every SSID the entries of the
result with that SSID are exactly the entry of the last access point of
`activeAPoints` whose three reads succeeded with that non-empty SSID, if there
is one, and none otherwise; such an entry exists exactly when some access point
of `activeAPoints` contributes one, so access points with a failed read or an
empty SSID neither appear nor stop the scan, and only the last pass counts. -/
theorem getAccessPoint_last_pass (env : Env) (fuel : Nat) (retryLimit : Int) (w : World)
    (aps : List AccessPoint) (w' : World)
    (h : getAccessPoint env fuel retryLimit w = .ret (aps, none) w') :
    ∃ activeAPoints, env.GetAccessPoints w'.trace.dropLast = .ok activeAPoints
      ∧ (∀ ssid, aps.filter (fun a => a.SSID = ssid) = (lastReadable activeAPoints ssid).toList)
      ∧ (∀ ssid, (lastReadable activeAPoints ssid).isSome
          ↔ ∃ aPoint ∈ activeAPoints, ∃ a, readEntry aPoint = some a ∧ a.SSID = ssid)
      ∧ (∀ aPoint a, readEntry aPoint = some a →
          aPoint.GetPropertySSID = .ok a.SSID ∧ a.SSID ≠ ""
            ∧ aPoint.GetPropertyStrength = .ok a.Strength
            ∧ getAccessPointSecurity aPoint = .ok a.Security ∧ a.Path = aPoint.GetPath) := by
  obtain ⟨activeAPoints, hq, hperm⟩ :=
    getAccessPointLoop_last_pass env retryLimit fuel 0 none w aps w' h
  have hok := getAccessPointLoop_ok env retryLimit fuel 0 none w aps w' h
  refine ⟨activeAPoints, hq, ?_, lastReadable_isSome_iff activeAPoints, ?_⟩
  · intro ssid
    apply filter_key_of_nodup aps ssid _ hok.1
    · intro a ha
      exact ⟨hperm.mem_iff.mpr ((mem_scanPass_iff _ _).mpr ⟨ssid, ha⟩),
        lastReadable_ssid _ _ _ ha⟩
    · intro hnone a ha hs
      obtain ⟨s2, h2⟩ := (mem_scanPass_iff _ _).mp (hperm.mem_iff.mp ha)
      have h3 := lastReadable_ssid _ _ _ h2
      rw [← h3, hs, hnone] at h2
      exact absurd h2 (by simp)
  · intro aPoint a ha
    unfold readEntry at ha
    cases h1 : aPoint.GetPropertySSID with
    | error e => rw [h1] at ha; simp at ha
    | ok ssid =>
      cases h2 : aPoint.GetPropertyStrength with
      | error e => rw [h1, h2] at ha; simp at ha
      | ok strength =>
        cases h3 : getAccessPointSecurity aPoint with
        | error e => rw [h1, h2, h3] at ha; simp at ha
        | ok security =>
          rw [h1, h2, h3] at ha
          by_cases hs : ssid = ""
          · simp [hs] at ha
          · simp [hs] at ha
            subst ha
            exact ⟨rfl, hs, rfl, rfl, rfl⟩

theorem getAccessPoint_last_pass_witness :
    ∃ activeAPoints,
      envBusy.GetAccessPoints (getAccessPoint envBusy 3 10 worldFresh).world.trace.dropLast
          = .ok activeAPoints
      ∧ (∀ ssid, scanBusyResult.filter (fun a => a.SSID = ssid)
          = (lastReadable activeAPoints ssid).toList)
      ∧ (∀ ssid, (lastReadable activeAPoints ssid).isSome
          ↔ ∃ aPoint ∈ activeAPoints, ∃ a, readEntry aPoint = some a ∧ a.SSID = ssid)
      ∧ (∀ aPoint a, readEntry aPoint = some a →
          aPoint.GetPropertySSID = .ok a.SSID ∧ a.SSID ≠ ""
            ∧ aPoint.GetPropertyStrength = .ok a.Strength
            ∧ getAccessPointSecurity aPoint = .ok a.Security ∧ a.Path = aPoint.GetPath) :=
  getAccessPoint_last_pass envBusy 3 10 worldFresh scanBusyResult
    (getAccessPoint envBusy 3 10 worldFresh).world (by decide)

/-! ## The hotspot at the moment of the connection, and the labels of the classifier -/

/-- C13: when `CloseHotSpot` fails (here at `GetPropertyConnection`),
`ClosePortal` drops its error and `Connect` goes on: at the moment
`AddAndActivateWirelessConnection` is invoked `isHotSpotCreated` is still true
and `HotSpotConnection` still holds the hotspot, and `Connect` returns true.
When the close succeeds both fields are cleared at that moment. -/
theorem Connect_adds_wireless_with_hotspot_open :
    (CloseHotSpot envCloseFails worldPortalUp).value
        = some (some "CloseHotSpot - found error on GetPropertyConnection [bus error]")
      ∧ hotSpotAtAddWireless
          (Connect envCloseFails 3 "Home" "password123" "" worldPortalUp).world.trace
          = [(true, some 1)]
      ∧ (Connect envCloseFails 3 "Home" "password123" "" worldPortalUp).value = some true
      ∧ hotSpotAtAddWireless
          (Connect envAllGood 3 "Home" "password123" "" worldPortalUp).world.trace
          = [(false, none)] := by
  decide

/-- C16: the classification of any three flag words has the ENTERPRISE bit
only together with the WPA or the WPA2 bit and the WEP bit only alone, is one
of 0, 1, 2, 4, 6, 10, 12, 14, and equals the bitwise OR of the flags added;
`SECURITY.String` of it is never "enterprise", and it is "none" whenever one of
the two flag sets has the 802.1X bit, so that an access point advertising
802.1X key management that was read into the cached list is shown by
`GetAccessPoint` with the security "none". -/
theorem classifier_never_enterprise (flag wpaFlag rsnFlag : Nat) :
    (((classifyFlags flag wpaFlag rsnFlag) &&& ENTERPRISE) = ENTERPRISE →
        ((classifyFlags flag wpaFlag rsnFlag) &&& WPA) = WPA
          ∨ ((classifyFlags flag wpaFlag rsnFlag) &&& WPA2) = WPA2)
      ∧ (((classifyFlags flag wpaFlag rsnFlag) &&& WEP) = WEP →
          classifyFlags flag wpaFlag rsnFlag = WEP)
      ∧ classifyFlags flag wpaFlag rsnFlag ∈ [0, 1, 2, 4, 6, 10, 12, 14]
      ∧ classifyFlags flag wpaFlag rsnFlag
          = ((if (flag &&& ApFlagsPrivacy) = ApFlagsPrivacy ∧ wpaFlag = ApSecNone
                ∧ rsnFlag = ApSecNone then WEP else NONE)
            ||| (if wpaFlag ≠ ApSecNone then WPA else NONE)
            ||| (if rsnFlag ≠ ApSecNone then WPA2 else NONE)
            ||| (if (wpaFlag &&& ApSecKeyMgmt8021X) = ApSecKeyMgmt8021X
                ∨ (rsnFlag &&& ApSecKeyMgmt8021X) = ApSecKeyMgmt8021X then ENTERPRISE else NONE))
      ∧ SECURITY.String (classifyFlags flag wpaFlag rsnFlag) ≠ "enterprise"
      ∧ (((wpaFlag &&& ApSecKeyMgmt8021X) = ApSecKeyMgmt8021X
            ∨ (rsnFlag &&& ApSecKeyMgmt8021X) = ApSecKeyMgmt8021X) →
          SECURITY.String (classifyFlags flag wpaFlag rsnFlag) = "none")
      ∧ (∀ (aPoint : NMAccessPoint) (a : AccessPoint) (c : Config),
          aPoint.GetPropertyFlags = .ok flag → aPoint.GetPropertyWPAFlags = .ok wpaFlag →
          aPoint.GetPropertyRSNFlags = .ok rsnFlag →
          ((wpaFlag &&& ApSecKeyMgmt8021X) = ApSecKeyMgmt8021X
            ∨ (rsnFlag &&& ApSecKeyMgmt8021X) = ApSecKeyMgmt8021X) →
          readEntry aPoint = some a → a ∈ c.AccessPoints →
          (⟨a.SSID, "none"⟩ : ModelsAccessPoint) ∈ (GetAccessPoint c).1) := by
  have hstr : ((wpaFlag &&& ApSecKeyMgmt8021X) = ApSecKeyMgmt8021X
        ∨ (rsnFlag &&& ApSecKeyMgmt8021X) = ApSecKeyMgmt8021X) →
      SECURITY.String (classifyFlags flag wpaFlag rsnFlag) = "none" := by
    rw [classifyFlags_cases]
    simp only [ApSecKeyMgmt8021X]
    intro h
    split_ifs <;> simp_all <;> decide
  refine ⟨?_, ?_, ?_, ?_, ?_, hstr, ?_⟩
  · clear hstr
    rw [classifyFlags_cases]; simp only [ENTERPRISE, WPA, WPA2]
    split_ifs <;> simp_all <;> decide
  · clear hstr
    rw [classifyFlags_cases]; simp only [WEP]
    split_ifs <;> simp_all
  · clear hstr
    rw [classifyFlags_cases]
    split_ifs <;> simp_all
  · clear hstr
    rw [classifyFlags_cases]
    simp only [ApFlagsPrivacy, ApSecNone, ApSecKeyMgmt8021X, WEP, WPA, WPA2, ENTERPRISE, NONE]
    split_ifs <;> simp_all
  · clear hstr
    rw [classifyFlags_cases]
    split_ifs <;> simp_all <;> decide
  · intro aPoint a c hf hw hr h8021x ha hmem
    have hsec : a.Security = classifyFlags flag wpaFlag rsnFlag := by
      unfold readEntry at ha
      have hs : getAccessPointSecurity aPoint = .ok (classifyFlags flag wpaFlag rsnFlag) := by
        simp [getAccessPointSecurity, hf, hw, hr]
      rw [hs] at ha
      cases h1 : aPoint.GetPropertySSID with
      | error e => rw [h1] at ha; simp at ha
      | ok ssid =>
        cases h2 : aPoint.GetPropertyStrength with
        | error e => rw [h1, h2] at ha; simp at ha
        | ok strength =>
          rw [h1, h2] at ha
          by_cases hs2 : ssid = ""
          · simp [hs2] at ha
          · simp [hs2] at ha
            rw [← ha]
    unfold GetAccessPoint
    have hlen : c.AccessPoints.length > 0 := List.length_pos_of_mem hmem
    simp only [hlen, if_true]
    refine List.mem_map.mpr ⟨a, hmem, ?_⟩
    rw [hsec, hstr h8021x]

theorem classifier_never_enterprise_witness :
    getAccessPointSecurity corpAP = .ok (WPA2 + ENTERPRISE)
      ∧ SECURITY.String (WPA2 + ENTERPRISE) = "none"
      ∧ (⟨"Corp", "none"⟩ : ModelsAccessPoint)
          ∈ (GetAccessPoint
              { worldFresh.c with AccessPoints := [⟨"Corp", "/ap/9", 60, WPA2 + ENTERPRISE⟩] }).1 :=
  ⟨rfl, by decide,
    (classifier_never_enterprise 1 0 0x288).2.2.2.2.2.2 corpAP
      ⟨"Corp", "/ap/9", 60, WPA2 + ENTERPRISE⟩
      { worldFresh.c with AccessPoints := [⟨"Corp", "/ap/9", 60, WPA2 + ENTERPRISE⟩] }
      rfl rfl rfl (by decide) (by decide) (by simp)⟩

end WifiConnect
